import Mathlib

/-!
Shallow embedding of the gridsite Site Scoring & Spatial Proximity Engine.

The engine lives in `src/lib/scoring.ts` (legacy score model) and in the
unnamed module `src/unnamed/part_006` (current score model with LMP and ATC
enrichment), with the radius-based proximity analysis duplicated in
`src/components/Map.tsx` and `src/app/page.tsx`.

Modelling choices:
* JavaScript numbers are modelled as `ℚ`; all the constants of the engine
  (weights, thresholds, sub-scores) are exact decimals, so the idealisation
  is faithful on every branch decision the claims are about.
* The two transcendental helpers, `haversineDistanceMiles` and
  `Math.cos(x * PI / 180)`, are abstracted into a `Trig` oracle that every
  embedded operation takes as a parameter; no claim in scope depends on the
  numeric value of either beyond what holds for every oracle, and concrete
  oracles are supplied where a concrete evaluation is needed.
* GeoJSON feature properties arrive as an open bag with possibly missing
  keys; the embedding keeps one record of `Option`-valued fields holding
  exactly the keys the engine reads, mirroring the `!= null` defaulting of
  the source.
* `Math.round(v * 10) / 10` is modelled by `r1` below; JavaScript
  `Math.round` rounds half toward positive infinity, which is `⌊x + 1/2⌋`.
-/

namespace GridSite

/-- GeoJSON geometry restricted to the cases the engine inspects. -/
inductive Geometry
| point (lon lat : ℚ)
| lineString (coords : List (ℚ × ℚ))
| multiLineString (parts : List (List (ℚ × ℚ)))
| other
deriving DecidableEq

/-- Feature properties read by the engine; a missing key is `none`.
Numeric properties are already coerced (the source applies `Number(...)`
with a documented default when the key is absent). -/
structure FeatureProps where
  NAME : Option String := none
  STATE : Option String := none
  MAX_VOLT : Option ℚ := none
  LINES : Option ℚ := none
  total_mw : Option ℚ := none
  name : Option String := none
  avg_lmp : Option ℚ := none
  avg_atc_mw : Option ℚ := none
  VOLTAGE : Option ℚ := none
deriving DecidableEq

/-- A GeoJSON feature: geometry plus properties. -/
structure Feature where
  geometry : Geometry
  properties : FeatureProps := {}
deriving DecidableEq

/-- A GeoJSON feature collection. -/
structure FeatureCollection where
  features : List Feature
deriving DecidableEq

/-- Oracle for the two transcendental helpers of the source:
`hav lat1 lon1 lat2 lon2` stands for `haversineDistanceMiles` and
`cosDeg x` for `Math.cos(x * Math.PI / 180)`. -/
structure Trig where
  hav : ℚ → ℚ → ℚ → ℚ → ℚ
  cosDeg : ℚ → ℚ

/-- JavaScript `Math.round(v * 10) / 10`: round to one decimal place. -/
def r1 (v : ℚ) : ℚ := ((⌊v * 10 + 1/2⌋ : ℤ) : ℚ) / 10

/-- States treated as high flood risk (`FLOOD_RISK_STATES` in constants.ts). -/
def FLOOD_RISK_STATES : List String := ["LA", "FL", "TX", "MS", "AL", "SC", "NC"]

/-- States treated as moderate flood risk (`MODERATE_FLOOD_STATES`). -/
def MODERATE_FLOOD_STATES : List String :=
  ["NJ", "DE", "MD", "VA", "GA", "CT", "RI", "MA", "HI"]

/-- State-level broadband coverage table (`BROADBAND_COVERAGE`). -/
def BROADBAND_COVERAGE : List (String × ℚ) :=
  [("NJ", 97), ("CT", 96), ("MA", 96), ("RI", 95), ("MD", 95), ("DE", 94),
   ("NY", 93), ("VA", 93), ("NH", 92), ("PA", 91), ("FL", 91), ("IL", 90),
   ("OH", 90), ("CA", 90), ("WA", 90), ("CO", 89), ("GA", 89), ("TX", 89),
   ("MI", 88), ("NC", 88), ("MN", 88), ("OR", 87), ("WI", 87), ("IN", 86),
   ("AZ", 86), ("SC", 86), ("TN", 85), ("UT", 85), ("NV", 85), ("MO", 84),
   ("KY", 83), ("IA", 83), ("AL", 82), ("KS", 82), ("NE", 81), ("LA", 81),
   ("OK", 80), ("ID", 79), ("SD", 78), ("ND", 77), ("WV", 76), ("AR", 76),
   ("NM", 75), ("ME", 75), ("VT", 74), ("MT", 73), ("WY", 72), ("MS", 72),
   ("AK", 70), ("HI", 80)]

/-- Lookup `BROADBAND_COVERAGE[state] || 80` (all table values are truthy). -/
def bbPctOf (state : String) : ℚ := (BROADBAND_COVERAGE.lookup state).getD 80

/-- Coastal-heuristic flood classifier (`isCoastalLocation` in scoring.ts). -/
def isCoastalLocation (lat lon : ℚ) (state : String) : Bool :=
  if FLOOD_RISK_STATES.contains state then
    if state = "FL" then true
    else if state = "LA" then decide (lat < 31 ∨ lon < -91)
    else if state = "TX" then decide (lon > -97 ∧ lat < 30.5)
    else if state = "MS" then decide (lat < 31.5)
    else if state = "AL" then decide (lat < 31.5)
    else if state = "NC" ∨ state = "SC" then decide (lon > -80)
    else true
  else false

/-- Step function scoring the nearest pricing node's average LMP
(`computeLmpScore` in part_006). -/
def computeLmpScore (avgLmp : ℚ) : ℚ :=
  if avgLmp ≤ 20 then 95
  else if avgLmp ≤ 25 then 90
  else if avgLmp ≤ 30 then 80
  else if avgLmp ≤ 35 then 70
  else if avgLmp ≤ 40 then 60
  else if avgLmp ≤ 45 then 50
  else if avgLmp ≤ 50 then 40
  else if avgLmp ≤ 55 then 30
  else 20

/-- Step function scoring the nearest interface's average ATC
(`computeAtcScore` in part_006). -/
def computeAtcScore (avgAtcMw : ℚ) : ℚ :=
  if avgAtcMw ≥ 500 then 95
  else if avgAtcMw ≥ 300 then 85
  else if avgAtcMw ≥ 200 then 75
  else if avgAtcMw ≥ 100 then 60
  else if avgAtcMw ≥ 50 then 45
  else if avgAtcMw ≥ 25 then 30
  else 20

/-- Snapshot of the nearest qualifying substation kept by the scan. -/
structure BestSub where
  name : String
  maxVolt : ℚ
  lines : ℚ
  state : String
deriving DecidableEq

/-- One step of the nearest-qualifying-substation scan in
`computeLocationScore`: skip records below 345 kV or without Point
geometry, otherwise keep the minimum-distance record (strict `<`, so ties
resolve to the earlier record). -/
def subStep (t : Trig) (lat lng : ℚ) (acc : Option (ℚ × BestSub)) (sf : Feature) :
    Option (ℚ × BestSub) :=
  let maxVolt := sf.properties.MAX_VOLT.getD 0
  if maxVolt < 345 then acc
  else
    match sf.geometry with
    | .point slon slat =>
      let dist := t.hav lat lng slat slon
      let cand : ℚ × BestSub :=
        (dist, ⟨sf.properties.NAME.getD "", maxVolt, sf.properties.LINES.getD 0,
          sf.properties.STATE.getD ""⟩)
      match acc with
      | none => some cand
      | some (bd, bs) => if dist < bd then some cand else some (bd, bs)
    | _ => acc

/-- The nearest-qualifying-substation loop of `computeLocationScore`
(both copies share it verbatim). -/
def nearestQualifyingSub (t : Trig) (lat lng : ℚ) (subs : FeatureCollection) :
    Option (ℚ × BestSub) :=
  subs.features.foldl (subStep t lat lng) none

/-- One step of the queue-withdrawals-within-20-miles tally of
`computeLocationScore`: degree bounding-box prefilter, then the exact
haversine test with inclusive 20-mile boundary. -/
def qwStep (t : Trig) (lat lng : ℚ) (acc : ℕ × ℚ) (qf : Feature) : ℕ × ℚ :=
  match qf.geometry with
  | .point qlon qlat =>
    let degDelta : ℚ := 20 / 69
    let lonDelta : ℚ := degDelta / max (t.cosDeg lat) (1/100)
    if |qlat - lat| > degDelta then acc
    else if |qlon - lng| > lonDelta then acc
    else if t.hav lat lng qlat qlon ≤ 20 then
      (acc.1 + 1, acc.2 + qf.properties.total_mw.getD 0)
    else acc
  | _ => acc

/-- The queue-withdrawal tally loop of `computeLocationScore` (count and
summed MW of withdrawals within 20 miles; both copies share it verbatim). -/
def queueWithin20 (t : Trig) (lat lng : ℚ) (qws : FeatureCollection) : ℕ × ℚ :=
  qws.features.foldl (qwStep t lat lng) (0, 0)

/-- Substation-distance sub-score: `Math.max(0, Math.min(100, 100 - bestDist * 2))`. -/
def distScoreOf (d : ℚ) : ℚ := max 0 (min 100 (100 - d * 2))

/-- Substation-voltage-tier sub-score. -/
def voltScoreOf (v : ℚ) : ℚ :=
  if v ≥ 765 then 100 else if v ≥ 500 then 85 else if v ≥ 345 then 70 else 60

/-- Connected-transmission-lines sub-score: `clamp(0,100, lines / 8 * 100)`. -/
def linesScoreOf (l : ℚ) : ℚ := max 0 (min 100 (l / 8 * 100))

/-- Queue-withdrawal sub-score from the 20-mile count and summed MW
(the `qwScore` block shared verbatim by both copies of
`computeLocationScore`). -/
def qwScoreOf (count : ℕ) (totalMW : ℚ) : ℚ :=
  if count = 0 then 30
  else
    let countScore := max 30 (min 100 (30 + (count : ℚ) * 5))
    let mwBonus := max 0 (min 20 (totalMW / 5000 * 20))
    max 0 (min 100 (countScore + mwBonus))

/-- Longitude-proxy connectivity sub-score (clamped twice as in the source). -/
def lonScoreOf (lng : ℚ) : ℚ :=
  let s : ℚ := if lng < -70 then max 0 (min 100 (100 - (lng + 70) * (-1.2))) else 100
  max 0 (min 100 s)

/-- Latitude-band connectivity sub-score. -/
def latScoreOf (lat : ℚ) : ℚ :=
  if 33 ≤ lat ∧ lat ≤ 43 then 90
  else if 28 ≤ lat ∧ lat ≤ 48 then 70
  else 40

/-- Broadband-coverage sub-score from the state coverage percentage. -/
def bbScoreOf (bbPct : ℚ) : ℚ :=
  if bbPct ≥ 95 then 95
  else if bbPct ≥ 90 then 85
  else if bbPct ≥ 85 then 75
  else if bbPct ≥ 80 then 65
  else if bbPct ≥ 75 then 50
  else 35

/-- Flood-zone sub-score: 35 coastal, 65 moderate-flood state, 90 inland. -/
def floodScoreOf (lat lng : ℚ) (state : String) : ℚ :=
  if isCoastalLocation lat lng state then 35
  else if MODERATE_FLOOD_STATES.contains state then 65
  else 90

/-- Result of `findNearestLmpNode`. -/
structure LmpResult where
  name : String
  avgLmp : ℚ
  lmpScore : ℚ
deriving DecidableEq

/-- Result of `findNearestAtcInterface`. -/
structure AtcResult where
  name : String
  avgAtcMw : ℚ
  atcScore : ℚ
deriving DecidableEq

/-- One step of the nearest-LMP-node scan: a missing `avg_lmp` property
defaults the node's price to 40. -/
def lmpStep (t : Trig) (lat lng : ℚ) (acc : Option (ℚ × String × ℚ)) (f : Feature) :
    Option (ℚ × String × ℚ) :=
  match f.geometry with
  | .point flon flat =>
    let d := t.hav lat lng flat flon
    let cand : ℚ × String × ℚ := (d, f.properties.name.getD "", f.properties.avg_lmp.getD 40)
    match acc with
    | none => some cand
    | some (bd, best) => if d < bd then some cand else some (bd, best)
  | _ => acc

/-- Nearest grid-pricing node (`findNearestLmpNode` in part_006). -/
def findNearestLmpNode (t : Trig) (lat lng : ℚ) (lmpData : FeatureCollection) :
    Option LmpResult :=
  match lmpData.features.foldl (lmpStep t lat lng) none with
  | none => none
  | some (_, nm, avg) => some ⟨nm, avg, computeLmpScore avg⟩

/-- One step of the nearest-ATC-interface scan: a missing `avg_atc_mw`
property defaults to 0. -/
def atcStep (t : Trig) (lat lng : ℚ) (acc : Option (ℚ × String × ℚ)) (f : Feature) :
    Option (ℚ × String × ℚ) :=
  match f.geometry with
  | .point flon flat =>
    let d := t.hav lat lng flat flon
    let cand : ℚ × String × ℚ := (d, f.properties.name.getD "", f.properties.avg_atc_mw.getD 0)
    match acc with
    | none => some cand
    | some (bd, best) => if d < bd then some cand else some (bd, best)
  | _ => acc

/-- Nearest transfer-capability interface (`findNearestAtcInterface`). -/
def findNearestAtcInterface (t : Trig) (lat lng : ℚ) (atcData : FeatureCollection) :
    Option AtcResult :=
  match atcData.features.foldl (atcStep t lat lng) none with
  | none => none
  | some (_, nm, avg) => some ⟨nm, avg, computeAtcScore avg⟩

/-- `lmpResult` of part_006's `computeLocationScore`: the optional pricing
dataset is scanned only when present. -/
def lmpResultOf (t : Trig) (lat lng : ℚ) : Option FeatureCollection → Option LmpResult
  | some dta => findNearestLmpNode t lat lng dta
  | none => none

/-- `atcResult` of part_006's `computeLocationScore`. -/
def atcResultOf (t : Trig) (lat lng : ℚ) : Option FeatureCollection → Option AtcResult
  | some dta => findNearestAtcInterface t lat lng dta
  | none => none

/-- `lmpScoreVal`: score of the nearest pricing node, or the neutral 50
when no pricing dataset or no node is available. -/
def lmpScoreValOf (t : Trig) (lat lng : ℚ) (o : Option FeatureCollection) : ℚ :=
  match lmpResultOf t lat lng o with
  | some res => res.lmpScore
  | none => 50

/-- `nearestLmpAvg`: the nearest node's average price, or 0 when absent. -/
def nearestLmpAvgOf (t : Trig) (lat lng : ℚ) (o : Option FeatureCollection) : ℚ :=
  match lmpResultOf t lat lng o with
  | some res => res.avgLmp
  | none => 0

/-- `nearestLmpNode`: the nearest node's name, or the empty string. -/
def nearestLmpNodeOf (t : Trig) (lat lng : ℚ) (o : Option FeatureCollection) : String :=
  match lmpResultOf t lat lng o with
  | some res => res.name
  | none => ""

/-- `atcScoreVal`: score of the nearest interface, or the neutral 50. -/
def atcScoreValOf (t : Trig) (lat lng : ℚ) (o : Option FeatureCollection) : ℚ :=
  match atcResultOf t lat lng o with
  | some res => res.atcScore
  | none => 50

/-- `nearestAtcMw`: the nearest interface's average MW, or 0 when absent. -/
def nearestAtcMwOf (t : Trig) (lat lng : ℚ) (o : Option FeatureCollection) : ℚ :=
  match atcResultOf t lat lng o with
  | some res => res.avgAtcMw
  | none => 0

/-- `nearestAtcInterface`: the nearest interface's name, or the empty string. -/
def nearestAtcNameOf (t : Trig) (lat lng : ℚ) (o : Option FeatureCollection) : String :=
  match atcResultOf t lat lng o with
  | some res => res.name
  | none => ""

/-- Time to Power of the current model (part_006, line 222):
distance 25% + voltage 15% + lines 15% + queue 18% + LMP 14% + ATC 13%. -/
def timeToPowerV2 (t : Trig) (lat lng : ℚ) (qws : FeatureCollection)
    (lmpNodesData atcData : Option FeatureCollection) (bestDist : ℚ) (bs : BestSub) : ℚ :=
  distScoreOf bestDist * 0.25 + voltScoreOf bs.maxVolt * 0.15 +
    linesScoreOf bs.lines * 0.15 +
    qwScoreOf (queueWithin20 t lat lng qws).1 (queueWithin20 t lat lng qws).2 * 0.18 +
    lmpScoreValOf t lat lng lmpNodesData * 0.14 + atcScoreValOf t lat lng atcData * 0.13

/-- Connectivity dimension: longitude proxy 40% + latitude band 30% +
broadband 30% (shared verbatim by both copies). -/
def connectivityOf (lng lat : ℚ) (state : String) : ℚ :=
  lonScoreOf lng * 0.40 + latScoreOf lat * 0.30 + bbScoreOf (bbPctOf state) * 0.30

/-- Risk Factors dimension for a custom location: contamination baseline 70
at 65% + flood zone at 35% (shared verbatim by both copies). -/
def riskFactorsOf (lat lng : ℚ) (state : String) : ℚ :=
  70 * 0.65 + floodScoreOf lat lng state * 0.35

/-- Composite: TtP 50% + readiness 20% + connectivity 15% + risk 15%,
clamped to [0,100] and rounded to one decimal. -/
def compositeOf (ttp conn risk : ℚ) : ℚ :=
  r1 (max 0 (min 100 (ttp * 0.50 + 65 * 0.20 + conn * 0.15 + risk * 0.15)))

/-- The ScoredSite produced by part_006's `computeLocationScore` for a
custom location (the current score model). -/
structure ScoredSite where
  plant_name : String
  state : String
  latitude : ℚ
  longitude : ℚ
  total_capacity_mw : ℚ
  fuel_type : String
  status : String
  composite_score : ℚ
  time_to_power : ℚ
  site_readiness : ℚ
  connectivity : ℚ
  risk_factors : ℚ
  sub_distance_score : ℚ
  sub_voltage_score : ℚ
  gen_capacity_score : ℚ
  tx_lines_score : ℚ
  queue_withdrawal_score : ℚ
  fuel_type_score : ℚ
  capacity_scale_score : ℚ
  longitude_score : ℚ
  latitude_score : ℚ
  broadband_score : ℚ
  contamination_score : ℚ
  operational_status_score : ℚ
  flood_zone_score : ℚ
  lmp_score : ℚ
  nearest_lmp_avg : ℚ
  nearest_lmp_node : String
  atc_score : ℚ
  nearest_atc_mw : ℚ
  nearest_atc_interface : String
  nearest_sub_name : String
  nearest_sub_distance_miles : ℚ
  nearest_sub_voltage_kv : ℚ
  nearest_sub_lines : ℚ
  queue_count_20mi : ℕ
  queue_mw_20mi : ℚ
deriving DecidableEq

/-- Record built by part_006's `computeLocationScore` once the nearest
qualifying substation `bs` at distance `bestDist` has been found. -/
def scoredOfV2 (t : Trig) (lng lat : ℚ) (qws : FeatureCollection)
    (lmpNodesData atcData : Option FeatureCollection) (bestDist : ℚ) (bs : BestSub) :
    ScoredSite :=
  { plant_name := "Custom Location"
    state := bs.state
    latitude := lat
    longitude := lng
    total_capacity_mw := 0
    fuel_type := "Custom"
    status := "custom"
    composite_score :=
      compositeOf (timeToPowerV2 t lat lng qws lmpNodesData atcData bestDist bs)
        (connectivityOf lng lat bs.state) (riskFactorsOf lat lng bs.state)
    time_to_power := r1 (timeToPowerV2 t lat lng qws lmpNodesData atcData bestDist bs)
    site_readiness := r1 65
    connectivity := r1 (connectivityOf lng lat bs.state)
    risk_factors := r1 (riskFactorsOf lat lng bs.state)
    sub_distance_score := r1 (distScoreOf bestDist)
    sub_voltage_score := r1 (voltScoreOf bs.maxVolt)
    gen_capacity_score := r1 0
    tx_lines_score := r1 (linesScoreOf bs.lines)
    queue_withdrawal_score :=
      r1 (qwScoreOf (queueWithin20 t lat lng qws).1 (queueWithin20 t lat lng qws).2)
    fuel_type_score := r1 0
    capacity_scale_score := r1 0
    longitude_score := r1 (lonScoreOf lng)
    latitude_score := r1 (latScoreOf lat)
    broadband_score := r1 (bbScoreOf (bbPctOf bs.state))
    contamination_score := r1 70
    operational_status_score := r1 0
    flood_zone_score := r1 (floodScoreOf lat lng bs.state)
    lmp_score := r1 (lmpScoreValOf t lat lng lmpNodesData)
    nearest_lmp_avg := r1 (nearestLmpAvgOf t lat lng lmpNodesData)
    nearest_lmp_node := nearestLmpNodeOf t lat lng lmpNodesData
    atc_score := r1 (atcScoreValOf t lat lng atcData)
    nearest_atc_mw := r1 (nearestAtcMwOf t lat lng atcData)
    nearest_atc_interface := nearestAtcNameOf t lat lng atcData
    nearest_sub_name := bs.name
    nearest_sub_distance_miles := r1 bestDist
    nearest_sub_voltage_kv := bs.maxVolt
    nearest_sub_lines := bs.lines
    queue_count_20mi := (queueWithin20 t lat lng qws).1
    queue_mw_20mi := r1 (queueWithin20 t lat lng qws).2 }

/-- Current `computeLocationScore` (part_006): `none` when the
nearest-qualifying-substation scan finds nothing. -/
def computeLocationScore (t : Trig) (lng lat : ℚ)
    (substationsData queueWithdrawalsData : FeatureCollection)
    (lmpNodesData atcData : Option FeatureCollection) : Option ScoredSite :=
  match nearestQualifyingSub t lat lng substationsData with
  | none => none
  | some (bestDist, bs) =>
    some (scoredOfV2 t lng lat queueWithdrawalsData lmpNodesData atcData bestDist bs)

/-- Time-to-power tier. -/
inductive TtpTier
| green
| yellow
| red
deriving DecidableEq

/-- Time-to-power classifier (`estimateTimeToPower` in scoring.ts,
duplicated verbatim in part_006). -/
def estimateTimeToPower (site : ScoredSite) : TtpTier :=
  if (site.status = "retired" ∨ site.status = "retiring") ∧
      site.sub_distance_score ≥ 80 ∧ site.tx_lines_score ≥ 25 ∧
      site.queue_withdrawal_score > 30 then
    .green
  else if site.sub_distance_score < 50 ∨
      (site.tx_lines_score < 25 ∧ site.queue_withdrawal_score ≤ 30) then
    .red
  else
    .yellow

end GridSite

namespace GridSite.Legacy

open GridSite

/-- The ScoredSite produced by the legacy `computeLocationScore` in
`src/lib/scoring.ts` (no LMP or ATC fields). -/
structure ScoredSite where
  plant_name : String
  state : String
  latitude : ℚ
  longitude : ℚ
  total_capacity_mw : ℚ
  fuel_type : String
  status : String
  composite_score : ℚ
  time_to_power : ℚ
  site_readiness : ℚ
  connectivity : ℚ
  risk_factors : ℚ
  sub_distance_score : ℚ
  sub_voltage_score : ℚ
  gen_capacity_score : ℚ
  tx_lines_score : ℚ
  queue_withdrawal_score : ℚ
  fuel_type_score : ℚ
  capacity_scale_score : ℚ
  longitude_score : ℚ
  latitude_score : ℚ
  broadband_score : ℚ
  contamination_score : ℚ
  operational_status_score : ℚ
  flood_zone_score : ℚ
  nearest_sub_name : String
  nearest_sub_distance_miles : ℚ
  nearest_sub_voltage_kv : ℚ
  nearest_sub_lines : ℚ
  queue_count_20mi : ℕ
  queue_mw_20mi : ℚ
deriving DecidableEq

/-- Time to Power of the legacy model (scoring.ts line 135):
distance 35% + voltage 20% + lines 20% + queue 25%, no LMP or ATC terms. -/
def timeToPowerLegacy (t : Trig) (lat lng : ℚ) (qws : FeatureCollection)
    (bestDist : ℚ) (bs : BestSub) : ℚ :=
  distScoreOf bestDist * 0.35 + voltScoreOf bs.maxVolt * 0.20 +
    linesScoreOf bs.lines * 0.20 +
    qwScoreOf (queueWithin20 t lat lng qws).1 (queueWithin20 t lat lng qws).2 * 0.25

/-- Record built by the legacy `computeLocationScore` once the nearest
qualifying substation has been found. -/
def scoredOfLegacy (t : Trig) (lng lat : ℚ) (qws : FeatureCollection)
    (bestDist : ℚ) (bs : BestSub) : ScoredSite :=
  { plant_name := "Custom Location"
    state := bs.state
    latitude := lat
    longitude := lng
    total_capacity_mw := 0
    fuel_type := "Custom"
    status := "custom"
    composite_score :=
      compositeOf (timeToPowerLegacy t lat lng qws bestDist bs)
        (connectivityOf lng lat bs.state) (riskFactorsOf lat lng bs.state)
    time_to_power := r1 (timeToPowerLegacy t lat lng qws bestDist bs)
    site_readiness := r1 65
    connectivity := r1 (connectivityOf lng lat bs.state)
    risk_factors := r1 (riskFactorsOf lat lng bs.state)
    sub_distance_score := r1 (distScoreOf bestDist)
    sub_voltage_score := r1 (voltScoreOf bs.maxVolt)
    gen_capacity_score := r1 0
    tx_lines_score := r1 (linesScoreOf bs.lines)
    queue_withdrawal_score :=
      r1 (qwScoreOf (queueWithin20 t lat lng qws).1 (queueWithin20 t lat lng qws).2)
    fuel_type_score := r1 0
    capacity_scale_score := r1 0
    longitude_score := r1 (lonScoreOf lng)
    latitude_score := r1 (latScoreOf lat)
    broadband_score := r1 (bbScoreOf (bbPctOf bs.state))
    contamination_score := r1 70
    operational_status_score := r1 0
    flood_zone_score := r1 (floodScoreOf lat lng bs.state)
    nearest_sub_name := bs.name
    nearest_sub_distance_miles := r1 bestDist
    nearest_sub_voltage_kv := bs.maxVolt
    nearest_sub_lines := bs.lines
    queue_count_20mi := (queueWithin20 t lat lng qws).1
    queue_mw_20mi := r1 (queueWithin20 t lat lng qws).2 }

/-- Legacy `computeLocationScore` (src/lib/scoring.ts, lines 67-206). -/
def computeLocationScore (t : Trig) (lng lat : ℚ)
    (substationsData queueWithdrawalsData : FeatureCollection) : Option ScoredSite :=
  match nearestQualifyingSub t lat lng substationsData with
  | none => none
  | some (bestDist, bs) =>
    some (scoredOfLegacy t lng lat queueWithdrawalsData bestDist bs)

end GridSite.Legacy

namespace GridSite.Prox

open GridSite

/-- Voltage-tier tally used for substations and transmission-line crossings
in `runProximityAnalysis` (Map.tsx and page.tsx, duplicated verbatim). -/
structure VoltTally where
  total : ℕ
  by500Plus : ℕ
  by345to499 : ℕ
  by230to344 : ℕ
  byUnder230 : ℕ
deriving DecidableEq

/-- The empty tally. -/
def VoltTally.zero : VoltTally := ⟨0, 0, 0, 0, 0⟩

/-- Bump the total and the voltage-tier bucket of a counted record. -/
def bumpVolt (acc : VoltTally) (v : ℚ) : VoltTally :=
  if v ≥ 500 then
    { acc with total := acc.total + 1, by500Plus := acc.by500Plus + 1 }
  else if v ≥ 345 then
    { acc with total := acc.total + 1, by345to499 := acc.by345to499 + 1 }
  else if v ≥ 230 then
    { acc with total := acc.total + 1, by230to344 := acc.by230to344 + 1 }
  else
    { acc with total := acc.total + 1, byUnder230 := acc.byUnder230 + 1 }

/-- One step of the substation proximity loop: count a Point feature when
its haversine distance is at most the radius (inclusive boundary),
bucketing by `MAX_VOLT` (missing voltage defaults to 0). -/
def subTallyStep (t : Trig) (siteLat siteLon radiusMiles : ℚ)
    (acc : VoltTally) (sf : Feature) : VoltTally :=
  match sf.geometry with
  | .point slon slat =>
    if t.hav siteLat siteLon slat slon ≤ radiusMiles then
      bumpVolt acc (sf.properties.MAX_VOLT.getD 0)
    else acc
  | _ => acc

/-- Substation tallies of `runProximityAnalysis`. -/
def analyzeSubstations (t : Trig) (siteLat siteLon radiusMiles : ℚ)
    (subs : FeatureCollection) : VoltTally :=
  subs.features.foldl (subTallyStep t siteLat siteLon radiusMiles) VoltTally.zero

/-- Queue-withdrawal tallies of `runProximityAnalysis`. -/
structure QwTally where
  total : ℕ
  totalWithdrawnMW : ℚ
deriving DecidableEq

/-- One step of the queue-withdrawal proximity loop: count a Point feature
when its haversine distance is at most the radius, summing `total_mw`
(missing MW defaults to 0). -/
def qwTallyStep (t : Trig) (siteLat siteLon radiusMiles : ℚ)
    (acc : QwTally) (qf : Feature) : QwTally :=
  match qf.geometry with
  | .point qlon qlat =>
    if t.hav siteLat siteLon qlat qlon ≤ radiusMiles then
      ⟨acc.total + 1, acc.totalWithdrawnMW + qf.properties.total_mw.getD 0⟩
    else acc
  | _ => acc

/-- Queue-withdrawal tallies of `runProximityAnalysis`. -/
def analyzeQueueWithdrawals (t : Trig) (siteLat siteLon radiusMiles : ℚ)
    (qws : FeatureCollection) : QwTally :=
  qws.features.foldl (qwTallyStep t siteLat siteLon radiusMiles) ⟨0, 0⟩

/-- Vertex list of a line feature: LineString coordinates, or the
concatenation of all MultiLineString parts; `none` for other geometries. -/
def lineCoordsOf : Geometry → Option (List (ℚ × ℚ))
  | .lineString cs => some cs
  | .multiLineString ps => some ps.flatten
  | _ => none

/-- Membership of a `(lon, lat)` vertex in the degree bounding box. -/
def inBbox (minLon maxLon minLat maxLat : ℚ) (c : ℚ × ℚ) : Bool :=
  decide (minLon ≤ c.1 ∧ c.1 ≤ maxLon ∧ minLat ≤ c.2 ∧ c.2 ≤ maxLat)

/-- The bounding-box prefilter of the transmission-line proximity loop:
true when at least one vertex of the line lies inside the box of
`radius / 69` degrees of latitude (longitude delta further divided by the
cosine of the site latitude). -/
def tlPrefilter (t : Trig) (siteLat siteLon radiusMiles : ℚ) (tf : Feature) : Bool :=
  match lineCoordsOf tf.geometry with
  | none => false
  | some coords =>
    let degPerMile : ℚ := 1 / 69
    let latDelta := radiusMiles * degPerMile
    let lonDelta := radiusMiles * degPerMile / t.cosDeg siteLat
    coords.any (inBbox (siteLon - lonDelta) (siteLon + lonDelta)
      (siteLat - latDelta) (siteLat + latDelta))

/-- One step of the transmission-line proximity loop. `bInt tf` stands for
turf `booleanIntersects(tf, circlePolygon)`, the exact intersection test
against the 64-sided polygon approximating the radius circle; it is only
consulted for features that survive the bounding-box prefilter. -/
def tlStep (t : Trig) (bInt : Feature → Bool) (siteLat siteLon radiusMiles : ℚ)
    (acc : VoltTally) (tf : Feature) : VoltTally :=
  match lineCoordsOf tf.geometry with
  | none => acc
  | some _ =>
    if tlPrefilter t siteLat siteLon radiusMiles tf then
      if bInt tf then bumpVolt acc (tf.properties.VOLTAGE.getD 0) else acc
    else acc

/-- Transmission-line crossing tallies of `runProximityAnalysis`. -/
def analyzeTransmissionLines (t : Trig) (bInt : Feature → Bool)
    (siteLat siteLon radiusMiles : ℚ) (lines : FeatureCollection) : VoltTally :=
  lines.features.foldl (tlStep t bInt siteLat siteLon radiusMiles) VoltTally.zero

/-- A point feature is within range exactly when its haversine distance to
the site is at most the radius (inclusive boundary). -/
def withinRadius (t : Trig) (siteLat siteLon radiusMiles : ℚ) (f : Feature) : Bool :=
  match f.geometry with
  | .point lon lat => decide (t.hav siteLat siteLon lat lon ≤ radiusMiles)
  | _ => false

/-- The `total_mw` of a feature, defaulting to 0 (as the source coerces). -/
def mwOf (f : Feature) : ℚ := f.properties.total_mw.getD 0

/-- The `MAX_VOLT` of a feature, defaulting to 0. -/
def maxVoltOf (f : Feature) : ℚ := f.properties.MAX_VOLT.getD 0

end GridSite.Prox

namespace GridSite

/-- Trivial oracle for concrete witnesses: distance constantly 0 (every
point coincides with the query point) and cosine constantly 1 (exact at
latitude 0, where all the concrete examples live). -/
def trigZero : Trig := ⟨fun _ _ _ _ => 0, fun _ => 1⟩

/-- Chebyshev-in-degrees oracle scaled to miles: a genuine distance
function that is exact along a meridian or the equator, used for the
concrete transmission-line example at latitude 0. -/
def trigCheb : Trig :=
  ⟨fun lat1 lon1 lat2 lon2 => 69 * max |lat2 - lat1| |lon2 - lon1|, fun _ => 1⟩

/-- A qualifying substation feature at the origin: 345 kV, Point geometry,
no NAME / LINES / STATE properties. -/
def exSub : Feature := { geometry := .point 0 0, properties := { MAX_VOLT := some 345 } }

/-- Collection holding only `exSub`. -/
def exSubs : FeatureCollection := ⟨[exSub]⟩

/-- The empty feature collection. -/
def emptyFC : FeatureCollection := ⟨[]⟩

/-- The BestSub record the scan extracts from `exSub`. -/
def exBest : BestSub := ⟨"", 345, 0, ""⟩

/-- The ScoredSite the current model produces at the origin for `exSubs`
with no withdrawals and no enrichment datasets. -/
def exSiteV2 : ScoredSite := scoredOfV2 trigZero 0 0 emptyFC none none 0 exBest

/-- The ScoredSite the legacy model produces on the same input. -/
def exSiteLegacy : Legacy.ScoredSite := Legacy.scoredOfLegacy trigZero 0 0 emptyFC 0 exBest

end GridSite

namespace GridSite

/-- A score value is well formed when it lies in [0,100] and is a whole
number of tenths (one decimal place). -/
def scoreOk (x : ℚ) : Prop := 0 ≤ x ∧ x ≤ 100 ∧ ∃ n : ℤ, x * 10 = n

/-- Spec form of the clamp: `clamp(lo, hi, x)`, written in the source as
`Math.max(lo, Math.min(hi, x))`. -/
def clamp (lo hi x : ℚ) : ℚ := max lo (min hi x)

/-- A feature qualifies as a nearest-substation candidate exactly when its
maximum voltage (default 0 when absent) is at least 345 kV and its
geometry is a Point. -/
def qualifiesSub (f : Feature) : Bool :=
  match f.geometry with
  | .point _ _ => decide (345 ≤ f.properties.MAX_VOLT.getD 0)
  | _ => false

/-- All the score and sub-score fields of a current-model ScoredSite are
in [0,100] and rounded to one decimal. -/
def scoreFieldsOk (s : ScoredSite) : Prop :=
  scoreOk s.composite_score ∧ scoreOk s.time_to_power ∧ scoreOk s.site_readiness ∧
  scoreOk s.connectivity ∧ scoreOk s.risk_factors ∧ scoreOk s.sub_distance_score ∧
  scoreOk s.sub_voltage_score ∧ scoreOk s.gen_capacity_score ∧
  scoreOk s.tx_lines_score ∧ scoreOk s.queue_withdrawal_score ∧
  scoreOk s.fuel_type_score ∧ scoreOk s.capacity_scale_score ∧
  scoreOk s.longitude_score ∧ scoreOk s.latitude_score ∧ scoreOk s.broadband_score ∧
  scoreOk s.contamination_score ∧ scoreOk s.operational_status_score ∧
  scoreOk s.flood_zone_score ∧ scoreOk s.lmp_score ∧ scoreOk s.atc_score

/-- All the score and sub-score fields of a legacy ScoredSite are in
[0,100] and rounded to one decimal. -/
def scoreFieldsOkL (s : Legacy.ScoredSite) : Prop :=
  scoreOk s.composite_score ∧ scoreOk s.time_to_power ∧ scoreOk s.site_readiness ∧
  scoreOk s.connectivity ∧ scoreOk s.risk_factors ∧ scoreOk s.sub_distance_score ∧
  scoreOk s.sub_voltage_score ∧ scoreOk s.gen_capacity_score ∧
  scoreOk s.tx_lines_score ∧ scoreOk s.queue_withdrawal_score ∧
  scoreOk s.fuel_type_score ∧ scoreOk s.capacity_scale_score ∧
  scoreOk s.longitude_score ∧ scoreOk s.latitude_score ∧ scoreOk s.broadband_score ∧
  scoreOk s.contamination_score ∧ scoreOk s.operational_status_score ∧
  scoreOk s.flood_zone_score

/-- A pricing node at the origin carrying a name but no `avg_lmp` key. -/
def exLmpNoPrice : Feature := { geometry := .point 0 0, properties := { name := some "N" } }

/-- Collection holding only `exLmpNoPrice`. -/
def exLmpFC : FeatureCollection := ⟨[exLmpNoPrice]⟩

/-- The ScoredSite the current model produces at the origin when the
pricing dataset holds only the price-less node `exLmpNoPrice`. -/
def exSiteLmp : ScoredSite := scoredOfV2 trigZero 0 0 emptyFC (some exLmpFC) none 0 exBest

/-- The retired-plant example of the spec: distance sub-score 85,
lines sub-score 37.5 (3 lines), queue sub-score 55. -/
def exGreenSite : ScoredSite :=
  { plant_name := "P", state := "OH", latitude := 0, longitude := 0,
    total_capacity_mw := 2000, fuel_type := "Coal", status := "retired",
    composite_score := 0, time_to_power := 0, site_readiness := 0,
    connectivity := 0, risk_factors := 0,
    sub_distance_score := 85, sub_voltage_score := 70, gen_capacity_score := 0,
    tx_lines_score := 37.5, queue_withdrawal_score := 55,
    fuel_type_score := 0, capacity_scale_score := 0,
    longitude_score := 0, latitude_score := 0, broadband_score := 0,
    contamination_score := 0, operational_status_score := 0, flood_zone_score := 0,
    lmp_score := 0, nearest_lmp_avg := 0, nearest_lmp_node := "",
    atc_score := 0, nearest_atc_mw := 0, nearest_atc_interface := "",
    nearest_sub_name := "", nearest_sub_distance_miles := 7.5,
    nearest_sub_voltage_kv := 345, nearest_sub_lines := 3,
    queue_count_20mi := 5, queue_mw_20mi := 0 }

/-- A transmission line running along the equator from longitude -1 to 1:
it passes straight through the origin, but both of its vertices are far
outside any small bounding box around the origin. -/
def exLine : Feature := { geometry := .lineString [(-1, 0), (1, 0)] }

/-- Collection holding only `exLine`. -/
def exLines : FeatureCollection := ⟨[exLine]⟩

/-- The intersection test that accepts every feature; even under it the
bounding-box prefilter alone decides the concrete example. -/
def acceptAll : Feature → Bool := fun _ => true

lemma r1_scoreOk {v : ℚ} (h0 : 0 ≤ v) (h1 : v ≤ 100) : scoreOk (r1 v) := by
  unfold r1 scoreOk
  refine ⟨?_, ?_, ⟨⌊v * 10 + 1/2⌋, by field_simp⟩⟩
  · have hf : (0 : ℤ) ≤ ⌊v * 10 + 1/2⌋ := Int.floor_nonneg.mpr (by linarith)
    have : (0 : ℚ) ≤ ((⌊v * 10 + 1/2⌋ : ℤ) : ℚ) := by exact_mod_cast hf
    linarith
  · have hb : v * 10 + 1/2 ≤ (2001 : ℚ)/2 := by linarith
    have hf : ⌊v * 10 + 1/2⌋ ≤ ⌊(2001 : ℚ)/2⌋ := Int.floor_le_floor hb
    have he : ⌊(2001 : ℚ)/2⌋ = 1000 := by norm_num [Int.floor_eq_iff]
    have : ((⌊v * 10 + 1/2⌋ : ℤ) : ℚ) ≤ 1000 := by exact_mod_cast he ▸ hf
    linarith

lemma r1_int (n : ℤ) : r1 (n : ℚ) = n := by
  unfold r1
  have h : ⌊(n : ℚ) * 10 + 1/2⌋ = 10 * n := by
    rw [Int.floor_eq_iff]
    constructor
    · push_cast
      linarith
    · push_cast
      linarith
  rw [h]
  push_cast
  ring

lemma clamp100_bounds (x : ℚ) : 0 ≤ max 0 (min 100 x) ∧ max 0 (min 100 x) ≤ 100 :=
  ⟨le_max_left _ _, max_le (by norm_num) (min_le_left _ _)⟩

lemma distScoreOf_bounds (d : ℚ) : 0 ≤ distScoreOf d ∧ distScoreOf d ≤ 100 :=
  clamp100_bounds _

lemma voltScoreOf_bounds (v : ℚ) : 0 ≤ voltScoreOf v ∧ voltScoreOf v ≤ 100 := by
  unfold voltScoreOf
  split_ifs <;> norm_num

lemma linesScoreOf_bounds (l : ℚ) : 0 ≤ linesScoreOf l ∧ linesScoreOf l ≤ 100 :=
  clamp100_bounds _

lemma qwScoreOf_bounds (c : ℕ) (mw : ℚ) : 0 ≤ qwScoreOf c mw ∧ qwScoreOf c mw ≤ 100 := by
  unfold qwScoreOf
  split
  · norm_num
  · exact clamp100_bounds _

lemma computeLmpScore_bounds (x : ℚ) : 0 ≤ computeLmpScore x ∧ computeLmpScore x ≤ 100 := by
  unfold computeLmpScore
  split_ifs <;> norm_num

lemma computeAtcScore_bounds (x : ℚ) : 0 ≤ computeAtcScore x ∧ computeAtcScore x ≤ 100 := by
  unfold computeAtcScore
  split_ifs <;> norm_num

lemma findNearestLmpNode_lmpScore {t : Trig} {lat lng : ℚ} {dta : FeatureCollection}
    {res : LmpResult} (h : findNearestLmpNode t lat lng dta = some res) :
    res.lmpScore = computeLmpScore res.avgLmp := by
  unfold findNearestLmpNode at h
  rcases hf : dta.features.foldl (lmpStep t lat lng) none with _ | ⟨d, nm, avg⟩ <;>
    rw [hf] at h
  · exact absurd h (by simp)
  · simp only [Option.some.injEq] at h
    subst h
    rfl

lemma findNearestAtcInterface_atcScore {t : Trig} {lat lng : ℚ} {dta : FeatureCollection}
    {res : AtcResult} (h : findNearestAtcInterface t lat lng dta = some res) :
    res.atcScore = computeAtcScore res.avgAtcMw := by
  unfold findNearestAtcInterface at h
  rcases hf : dta.features.foldl (atcStep t lat lng) none with _ | ⟨d, nm, avg⟩ <;>
    rw [hf] at h
  · exact absurd h (by simp)
  · simp only [Option.some.injEq] at h
    subst h
    rfl

lemma lmpScoreValOf_eq_none {t : Trig} {lat lng : ℚ} {o : Option FeatureCollection}
    (h : lmpResultOf t lat lng o = none) : lmpScoreValOf t lat lng o = 50 := by
  unfold lmpScoreValOf
  rw [h]

lemma lmpScoreValOf_eq_some {t : Trig} {lat lng : ℚ} {o : Option FeatureCollection}
    {res : LmpResult} (h : lmpResultOf t lat lng o = some res) :
    lmpScoreValOf t lat lng o = res.lmpScore := by
  unfold lmpScoreValOf
  rw [h]

lemma atcScoreValOf_eq_none {t : Trig} {lat lng : ℚ} {o : Option FeatureCollection}
    (h : atcResultOf t lat lng o = none) : atcScoreValOf t lat lng o = 50 := by
  unfold atcScoreValOf
  rw [h]

lemma atcScoreValOf_eq_some {t : Trig} {lat lng : ℚ} {o : Option FeatureCollection}
    {res : AtcResult} (h : atcResultOf t lat lng o = some res) :
    atcScoreValOf t lat lng o = res.atcScore := by
  unfold atcScoreValOf
  rw [h]

lemma lmpScoreValOf_bounds (t : Trig) (lat lng : ℚ) (o : Option FeatureCollection) :
    0 ≤ lmpScoreValOf t lat lng o ∧ lmpScoreValOf t lat lng o ≤ 100 := by
  rcases ho : lmpResultOf t lat lng o with _ | res
  · rw [lmpScoreValOf_eq_none ho]
    norm_num
  · rw [lmpScoreValOf_eq_some ho]
    rcases o with _ | dta
    · exact absurd ho (by simp [lmpResultOf])
    · have hn : findNearestLmpNode t lat lng dta = some res := ho
      rw [findNearestLmpNode_lmpScore hn]
      exact computeLmpScore_bounds _

lemma atcScoreValOf_bounds (t : Trig) (lat lng : ℚ) (o : Option FeatureCollection) :
    0 ≤ atcScoreValOf t lat lng o ∧ atcScoreValOf t lat lng o ≤ 100 := by
  rcases ho : atcResultOf t lat lng o with _ | res
  · rw [atcScoreValOf_eq_none ho]
    norm_num
  · rw [atcScoreValOf_eq_some ho]
    rcases o with _ | dta
    · exact absurd ho (by simp [atcResultOf])
    · have hn : findNearestAtcInterface t lat lng dta = some res := ho
      rw [findNearestAtcInterface_atcScore hn]
      exact computeAtcScore_bounds _

lemma lonScoreOf_bounds (lng : ℚ) : 0 ≤ lonScoreOf lng ∧ lonScoreOf lng ≤ 100 :=
  clamp100_bounds _

lemma latScoreOf_bounds (lat : ℚ) : 0 ≤ latScoreOf lat ∧ latScoreOf lat ≤ 100 := by
  unfold latScoreOf
  split_ifs <;> norm_num

lemma bbScoreOf_bounds (p : ℚ) : 0 ≤ bbScoreOf p ∧ bbScoreOf p ≤ 100 := by
  unfold bbScoreOf
  split_ifs <;> norm_num

lemma floodScoreOf_bounds (lat lng : ℚ) (st : String) :
    0 ≤ floodScoreOf lat lng st ∧ floodScoreOf lat lng st ≤ 100 := by
  unfold floodScoreOf
  split_ifs <;> norm_num

lemma timeToPowerV2_bounds (t : Trig) (lat lng : ℚ) (qws : FeatureCollection)
    (lmpD atcD : Option FeatureCollection) (bestDist : ℚ) (bs : BestSub) :
    0 ≤ timeToPowerV2 t lat lng qws lmpD atcD bestDist bs ∧
      timeToPowerV2 t lat lng qws lmpD atcD bestDist bs ≤ 100 := by
  obtain ⟨d0, d1⟩ := distScoreOf_bounds bestDist
  obtain ⟨v0, v1⟩ := voltScoreOf_bounds bs.maxVolt
  obtain ⟨l0, l1⟩ := linesScoreOf_bounds bs.lines
  obtain ⟨q0, q1⟩ :=
    qwScoreOf_bounds (queueWithin20 t lat lng qws).1 (queueWithin20 t lat lng qws).2
  obtain ⟨p0, p1⟩ := lmpScoreValOf_bounds t lat lng lmpD
  obtain ⟨a0, a1⟩ := atcScoreValOf_bounds t lat lng atcD
  unfold timeToPowerV2
  constructor <;> nlinarith

lemma connectivityOf_bounds (lng lat : ℚ) (st : String) :
    0 ≤ connectivityOf lng lat st ∧ connectivityOf lng lat st ≤ 100 := by
  obtain ⟨o0, o1⟩ := lonScoreOf_bounds lng
  obtain ⟨t0, t1⟩ := latScoreOf_bounds lat
  obtain ⟨b0, b1⟩ := bbScoreOf_bounds (bbPctOf st)
  unfold connectivityOf
  constructor <;> nlinarith

lemma riskFactorsOf_bounds (lat lng : ℚ) (st : String) :
    0 ≤ riskFactorsOf lat lng st ∧ riskFactorsOf lat lng st ≤ 100 := by
  obtain ⟨f0, f1⟩ := floodScoreOf_bounds lat lng st
  unfold riskFactorsOf
  constructor <;> nlinarith

lemma compositeOf_scoreOk (ttp conn risk : ℚ) : scoreOk (compositeOf ttp conn risk) := by
  unfold compositeOf
  exact r1_scoreOk (clamp100_bounds _).1 (clamp100_bounds _).2

end GridSite

namespace GridSite.Legacy

open GridSite

lemma timeToPowerLegacy_bounds (t : Trig) (lat lng : ℚ) (qws : FeatureCollection)
    (bestDist : ℚ) (bs : BestSub) :
    0 ≤ timeToPowerLegacy t lat lng qws bestDist bs ∧
      timeToPowerLegacy t lat lng qws bestDist bs ≤ 100 := by
  obtain ⟨d0, d1⟩ := distScoreOf_bounds bestDist
  obtain ⟨v0, v1⟩ := voltScoreOf_bounds bs.maxVolt
  obtain ⟨l0, l1⟩ := linesScoreOf_bounds bs.lines
  obtain ⟨q0, q1⟩ :=
    qwScoreOf_bounds (queueWithin20 t lat lng qws).1 (queueWithin20 t lat lng qws).2
  unfold timeToPowerLegacy
  constructor <;> nlinarith

end GridSite.Legacy

namespace GridSite

lemma subStep_eq_none_iff (t : Trig) (lat lng : ℚ) (acc : Option (ℚ × BestSub))
    (sf : Feature) :
    subStep t lat lng acc sf = none ↔ acc = none ∧ qualifiesSub sf = false := by
  by_cases hv : sf.properties.MAX_VOLT.getD 0 < 345
  · rcases hg : sf.geometry with ⟨slon, slat⟩ | cs | ps | _ <;>
      simp [subStep, qualifiesSub, hg, hv, not_le.mpr hv]
  · rcases hg : sf.geometry with ⟨slon, slat⟩ | cs | ps | _ <;>
      rcases acc with _ | ⟨bd, bs⟩ <;>
      simp [subStep, qualifiesSub, hg, hv, not_lt.mp hv] <;>
      split_ifs <;> simp

lemma subStep_maxVolt {t : Trig} {lat lng : ℚ} {acc : Option (ℚ × BestSub)}
    {sf : Feature} {p : ℚ × BestSub}
    (hacc : ∀ q, acc = some q → 345 ≤ q.2.maxVolt)
    (h : subStep t lat lng acc sf = some p) : 345 ≤ p.2.maxVolt := by
  by_cases hv : sf.properties.MAX_VOLT.getD 0 < 345
  · apply hacc
    rw [← h]
    simp [subStep, hv]
  · rcases hg : sf.geometry with ⟨slon, slat⟩ | cs | ps | _
    · rcases acc with _ | ⟨bd, bs⟩
      · simp only [subStep, hg, if_neg hv, Option.some.injEq] at h
        rw [← h]
        exact not_lt.mp hv
      · simp only [subStep, hg, if_neg hv] at h
        split_ifs at h <;> simp only [Option.some.injEq] at h
        · rw [← h]
          exact not_lt.mp hv
        · rw [← h]
          exact hacc (bd, bs) rfl
    all_goals
      apply hacc
      rw [← h]
      simp [subStep, hg, hv]

lemma subFold_eq_none_iff (t : Trig) (lat lng : ℚ) :
    ∀ (l : List Feature) (acc : Option (ℚ × BestSub)),
      l.foldl (subStep t lat lng) acc = none ↔
        acc = none ∧ ∀ f ∈ l, qualifiesSub f = false := by
  intro l
  induction l with
  | nil => intro acc; simp
  | cons hd tl ih =>
    intro acc
    rw [List.foldl_cons, ih, subStep_eq_none_iff]
    constructor
    · rintro ⟨⟨h1, h2⟩, h3⟩
      refine ⟨h1, ?_⟩
      intro f hf
      rcases List.mem_cons.mp hf with hf | hf
      · rw [hf]; exact h2
      · exact h3 f hf
    · rintro ⟨h1, h2⟩
      exact ⟨⟨h1, h2 hd (List.mem_cons_self hd tl)⟩,
        fun f hf => h2 f (List.mem_cons_of_mem hd hf)⟩

lemma nearestQualifyingSub_eq_none_iff (t : Trig) (lat lng : ℚ)
    (subs : FeatureCollection) :
    nearestQualifyingSub t lat lng subs = none ↔
      ∀ f ∈ subs.features, qualifiesSub f = false := by
  unfold nearestQualifyingSub
  rw [subFold_eq_none_iff]
  simp

lemma nearestQualifyingSub_maxVolt {t : Trig} {lat lng : ℚ}
    {subs : FeatureCollection} {p : ℚ × BestSub}
    (h : nearestQualifyingSub t lat lng subs = some p) : 345 ≤ p.2.maxVolt := by
  unfold nearestQualifyingSub at h
  revert h
  have aux : ∀ (l : List Feature) (acc : Option (ℚ × BestSub)),
      (∀ q, acc = some q → 345 ≤ q.2.maxVolt) →
      ∀ q, l.foldl (subStep t lat lng) acc = some q → 345 ≤ q.2.maxVolt := by
    intro l
    induction l with
    | nil => intro acc hacc q hq; exact hacc q (by simpa using hq)
    | cons hd tl ih =>
      intro acc hacc q hq
      rw [List.foldl_cons] at hq
      exact ih _ (fun w hw => subStep_maxVolt hacc hw) q hq
  intro h
  exact aux subs.features none (by simp) p h

end GridSite

namespace GridSite.Prox

open GridSite

lemma bumpVolt_fields (acc : VoltTally) (v : ℚ) :
    (bumpVolt acc v).total = acc.total + 1 ∧
    (bumpVolt acc v).by500Plus = acc.by500Plus + (if 500 ≤ v then 1 else 0) ∧
    (bumpVolt acc v).by345to499 = acc.by345to499 + (if 345 ≤ v ∧ v < 500 then 1 else 0) ∧
    (bumpVolt acc v).by230to344 = acc.by230to344 + (if 230 ≤ v ∧ v < 345 then 1 else 0) ∧
    (bumpVolt acc v).byUnder230 = acc.byUnder230 + (if v < 230 then 1 else 0) := by
  unfold bumpVolt
  by_cases h1 : 500 ≤ v
  · have k1 : ¬(345 ≤ v ∧ v < 500) := fun hc => absurd hc.2 (not_lt.mpr (by linarith))
    have k2 : ¬(230 ≤ v ∧ v < 345) := fun hc => absurd hc.2 (not_lt.mpr (by linarith))
    have k3 : ¬(v < 230) := not_lt.mpr (by linarith)
    simp [ge_iff_le, h1, k1, k2, k3]
  · by_cases h2 : 345 ≤ v
    · have k1 : 345 ≤ v ∧ v < 500 := ⟨h2, not_le.mp h1⟩
      have k2 : ¬(230 ≤ v ∧ v < 345) := fun hc => absurd hc.2 (not_lt.mpr (by linarith))
      have k3 : ¬(v < 230) := not_lt.mpr (by linarith)
      simp [ge_iff_le, h1, h2, k1, k2, k3]
    · by_cases h3 : 230 ≤ v
      · have k1 : ¬(345 ≤ v ∧ v < 500) := fun hc => absurd hc.1 h2
        have k2 : 230 ≤ v ∧ v < 345 := ⟨h3, not_le.mp h2⟩
        have k3 : ¬(v < 230) := not_lt.mpr (by linarith)
        simp [ge_iff_le, h1, h2, h3, k1, k2, k3]
      · have k1 : ¬(345 ≤ v ∧ v < 500) := fun hc => absurd hc.1 h2
        have k2 : ¬(230 ≤ v ∧ v < 345) := fun hc => absurd hc.1 h3
        have k3 : v < 230 := not_le.mp h3
        simp [ge_iff_le, h1, h2, h3, k1, k2, k3]

lemma subTallyStep_fields (t : Trig) (a b r : ℚ) (acc : VoltTally) (f : Feature) :
    (subTallyStep t a b r acc f).total =
      acc.total + (if withinRadius t a b r f then 1 else 0) ∧
    (subTallyStep t a b r acc f).by500Plus =
      acc.by500Plus +
        (if withinRadius t a b r f && decide (500 ≤ maxVoltOf f) then 1 else 0) ∧
    (subTallyStep t a b r acc f).by345to499 =
      acc.by345to499 + (if withinRadius t a b r f &&
        decide (345 ≤ maxVoltOf f ∧ maxVoltOf f < 500) then 1 else 0) ∧
    (subTallyStep t a b r acc f).by230to344 =
      acc.by230to344 + (if withinRadius t a b r f &&
        decide (230 ≤ maxVoltOf f ∧ maxVoltOf f < 345) then 1 else 0) ∧
    (subTallyStep t a b r acc f).byUnder230 =
      acc.byUnder230 +
        (if withinRadius t a b r f && decide (maxVoltOf f < 230) then 1 else 0) := by
  rcases hg : f.geometry with ⟨lon, lat⟩ | cs | ps | _
  · by_cases hd : t.hav a b lat lon ≤ r
    · have hw : withinRadius t a b r f = true := by simp [withinRadius, hg, hd]
      have hstep : subTallyStep t a b r acc f = bumpVolt acc (maxVoltOf f) := by
        simp [subTallyStep, hg, if_pos hd, maxVoltOf]
      obtain ⟨e1, e2, e3, e4, e5⟩ := bumpVolt_fields acc (maxVoltOf f)
      rw [hstep, hw]
      refine ⟨?_, ?_, ?_, ?_, ?_⟩
      · rw [e1]; simp
      · rw [e2]; simp
      · rw [e3]; simp
      · rw [e4]; simp
      · rw [e5]; simp
    · have hw : withinRadius t a b r f = false := by simp [withinRadius, hg, hd]
      have hstep : subTallyStep t a b r acc f = acc := by
        simp [subTallyStep, hg, if_neg hd]
      rw [hstep, hw]
      simp
  all_goals
    have hw : withinRadius t a b r f = false := by simp [withinRadius, hg]
    have hstep : subTallyStep t a b r acc f = acc := by simp [subTallyStep, hg]
    rw [hstep, hw]
    simp

lemma subTallyFold (t : Trig) (a b r : ℚ) :
    ∀ (l : List Feature) (acc : VoltTally),
      (l.foldl (subTallyStep t a b r) acc).total =
        acc.total + l.countP (withinRadius t a b r) ∧
      (l.foldl (subTallyStep t a b r) acc).by500Plus =
        acc.by500Plus +
          l.countP (fun f => withinRadius t a b r f && decide (500 ≤ maxVoltOf f)) ∧
      (l.foldl (subTallyStep t a b r) acc).by345to499 =
        acc.by345to499 + l.countP (fun f =>
          withinRadius t a b r f && decide (345 ≤ maxVoltOf f ∧ maxVoltOf f < 500)) ∧
      (l.foldl (subTallyStep t a b r) acc).by230to344 =
        acc.by230to344 + l.countP (fun f =>
          withinRadius t a b r f && decide (230 ≤ maxVoltOf f ∧ maxVoltOf f < 345)) ∧
      (l.foldl (subTallyStep t a b r) acc).byUnder230 =
        acc.byUnder230 +
          l.countP (fun f => withinRadius t a b r f && decide (maxVoltOf f < 230)) := by
  intro l
  induction l with
  | nil => intro acc; simp
  | cons hd tl ih =>
    intro acc
    obtain ⟨i1, i2, i3, i4, i5⟩ := ih (subTallyStep t a b r acc hd)
    obtain ⟨s1, s2, s3, s4, s5⟩ := subTallyStep_fields t a b r acc hd
    rw [List.foldl_cons]
    refine ⟨?_, ?_, ?_, ?_, ?_⟩ <;> simp only [List.countP_cons]
    · rw [i1, s1]; omega
    · rw [i2, s2]; omega
    · rw [i3, s3]; omega
    · rw [i4, s4]; omega
    · rw [i5, s5]; omega

end GridSite.Prox

namespace GridSite.Prox

open GridSite

lemma qwTallyStep_fields (t : Trig) (a b r : ℚ) (acc : QwTally) (f : Feature) :
    (qwTallyStep t a b r acc f).total =
      acc.total + (if withinRadius t a b r f then 1 else 0) ∧
    (qwTallyStep t a b r acc f).totalWithdrawnMW =
      acc.totalWithdrawnMW + (if withinRadius t a b r f then mwOf f else 0) := by
  rcases hg : f.geometry with ⟨lon, lat⟩ | cs | ps | _
  · by_cases hd : t.hav a b lat lon ≤ r
    · have hw : withinRadius t a b r f = true := by simp [withinRadius, hg, hd]
      rw [hw]
      simp [qwTallyStep, hg, if_pos hd, mwOf]
    · have hw : withinRadius t a b r f = false := by simp [withinRadius, hg, hd]
      rw [hw]
      simp [qwTallyStep, hg, if_neg hd]
  all_goals
    have hw : withinRadius t a b r f = false := by simp [withinRadius, hg]
    rw [hw]
    simp [qwTallyStep, hg]

lemma qwTallyFold (t : Trig) (a b r : ℚ) :
    ∀ (l : List Feature) (acc : QwTally),
      (l.foldl (qwTallyStep t a b r) acc).total =
        acc.total + l.countP (withinRadius t a b r) ∧
      (l.foldl (qwTallyStep t a b r) acc).totalWithdrawnMW =
        acc.totalWithdrawnMW + ((l.filter (withinRadius t a b r)).map mwOf).sum := by
  intro l
  induction l with
  | nil => intro acc; simp
  | cons hd tl ih =>
    intro acc
    obtain ⟨i1, i2⟩ := ih (qwTallyStep t a b r acc hd)
    obtain ⟨s1, s2⟩ := qwTallyStep_fields t a b r acc hd
    rw [List.foldl_cons]
    constructor
    · rw [List.countP_cons, i1, s1]
      omega
    · rw [List.filter_cons, i2, s2]
      by_cases hw : withinRadius t a b r hd = true
      · rw [if_pos hw, if_pos hw, List.map_cons, List.sum_cons]
        ring
      · rw [if_neg hw, if_neg hw]
        ring

lemma tlStep_total (t : Trig) (bInt : Feature → Bool) (a b r : ℚ)
    (acc : VoltTally) (f : Feature) :
    (tlStep t bInt a b r acc f).total =
      acc.total + (if tlPrefilter t a b r f && bInt f then 1 else 0) := by
  rcases hc : lineCoordsOf f.geometry with _ | coords
  · have hp : tlPrefilter t a b r f = false := by
      unfold tlPrefilter
      rw [hc]
    rw [hp]
    simp only [tlStep, hc]
    simp
  · have hstep : tlStep t bInt a b r acc f =
        (if tlPrefilter t a b r f then
          (if bInt f then bumpVolt acc (f.properties.VOLTAGE.getD 0) else acc)
        else acc) := by
      simp only [tlStep, hc]
    rw [hstep]
    by_cases hp : tlPrefilter t a b r f = true
    · by_cases hb : bInt f = true
      · rw [if_pos hp, if_pos hb, (bumpVolt_fields acc _).1, hp, hb]
        simp
      · have hb2 : bInt f = false := Bool.eq_false_iff.mpr hb
        rw [if_pos hp, if_neg hb, hp, hb2]
        simp
    · have hp2 : tlPrefilter t a b r f = false := Bool.eq_false_iff.mpr hp
      rw [if_neg hp, hp2]
      simp

lemma tlFold_total (t : Trig) (bInt : Feature → Bool) (a b r : ℚ) :
    ∀ (l : List Feature) (acc : VoltTally),
      (l.foldl (tlStep t bInt a b r) acc).total =
        acc.total + l.countP (fun f => tlPrefilter t a b r f && bInt f) := by
  intro l
  induction l with
  | nil => intro acc; simp
  | cons hd tl ih =>
    intro acc
    rw [List.foldl_cons, ih (tlStep t bInt a b r acc hd), List.countP_cons,
      tlStep_total]
    omega

end GridSite.Prox

namespace GridSite

lemma scoredOfV2_ok (t : Trig) (lng lat : ℚ) (qws : FeatureCollection)
    (lmpD atcD : Option FeatureCollection) (d : ℚ) (bs : BestSub) :
    scoreFieldsOk (scoredOfV2 t lng lat qws lmpD atcD d bs) := by
  obtain ⟨w0, w1⟩ := timeToPowerV2_bounds t lat lng qws lmpD atcD d bs
  obtain ⟨c0, c1⟩ := connectivityOf_bounds lng lat bs.state
  obtain ⟨k0, k1⟩ := riskFactorsOf_bounds lat lng bs.state
  unfold scoreFieldsOk
  refine ⟨compositeOf_scoreOk _ _ _, r1_scoreOk w0 w1,
    r1_scoreOk (by norm_num) (by norm_num),
    r1_scoreOk c0 c1, r1_scoreOk k0 k1,
    r1_scoreOk (distScoreOf_bounds d).1 (distScoreOf_bounds d).2,
    r1_scoreOk (voltScoreOf_bounds bs.maxVolt).1 (voltScoreOf_bounds bs.maxVolt).2,
    r1_scoreOk (by norm_num) (by norm_num),
    r1_scoreOk (linesScoreOf_bounds bs.lines).1 (linesScoreOf_bounds bs.lines).2,
    r1_scoreOk (qwScoreOf_bounds _ _).1 (qwScoreOf_bounds _ _).2,
    r1_scoreOk (by norm_num) (by norm_num), r1_scoreOk (by norm_num) (by norm_num),
    r1_scoreOk (lonScoreOf_bounds lng).1 (lonScoreOf_bounds lng).2,
    r1_scoreOk (latScoreOf_bounds lat).1 (latScoreOf_bounds lat).2,
    r1_scoreOk (bbScoreOf_bounds _).1 (bbScoreOf_bounds _).2,
    r1_scoreOk (by norm_num) (by norm_num), r1_scoreOk (by norm_num) (by norm_num),
    r1_scoreOk (floodScoreOf_bounds lat lng bs.state).1
      (floodScoreOf_bounds lat lng bs.state).2,
    r1_scoreOk (lmpScoreValOf_bounds t lat lng lmpD).1
      (lmpScoreValOf_bounds t lat lng lmpD).2,
    r1_scoreOk (atcScoreValOf_bounds t lat lng atcD).1
      (atcScoreValOf_bounds t lat lng atcD).2⟩

lemma scoredOfLegacy_ok (t : Trig) (lng lat : ℚ) (qws : FeatureCollection)
    (d : ℚ) (bs : BestSub) :
    scoreFieldsOkL (Legacy.scoredOfLegacy t lng lat qws d bs) := by
  obtain ⟨w0, w1⟩ := Legacy.timeToPowerLegacy_bounds t lat lng qws d bs
  obtain ⟨c0, c1⟩ := connectivityOf_bounds lng lat bs.state
  obtain ⟨k0, k1⟩ := riskFactorsOf_bounds lat lng bs.state
  unfold scoreFieldsOkL
  refine ⟨compositeOf_scoreOk _ _ _, r1_scoreOk w0 w1,
    r1_scoreOk (by norm_num) (by norm_num),
    r1_scoreOk c0 c1, r1_scoreOk k0 k1,
    r1_scoreOk (distScoreOf_bounds d).1 (distScoreOf_bounds d).2,
    r1_scoreOk (voltScoreOf_bounds bs.maxVolt).1 (voltScoreOf_bounds bs.maxVolt).2,
    r1_scoreOk (by norm_num) (by norm_num),
    r1_scoreOk (linesScoreOf_bounds bs.lines).1 (linesScoreOf_bounds bs.lines).2,
    r1_scoreOk (qwScoreOf_bounds _ _).1 (qwScoreOf_bounds _ _).2,
    r1_scoreOk (by norm_num) (by norm_num), r1_scoreOk (by norm_num) (by norm_num),
    r1_scoreOk (lonScoreOf_bounds lng).1 (lonScoreOf_bounds lng).2,
    r1_scoreOk (latScoreOf_bounds lat).1 (latScoreOf_bounds lat).2,
    r1_scoreOk (bbScoreOf_bounds _).1 (bbScoreOf_bounds _).2,
    r1_scoreOk (by norm_num) (by norm_num), r1_scoreOk (by norm_num) (by norm_num),
    r1_scoreOk (floodScoreOf_bounds lat lng bs.state).1
      (floodScoreOf_bounds lat lng bs.state).2⟩

lemma computeLocationScore_some_iff (t : Trig) (lng lat : ℚ)
    (subs qws : FeatureCollection) (lmpD atcD : Option FeatureCollection)
    (s : ScoredSite) :
    computeLocationScore t lng lat subs qws lmpD atcD = some s ↔
      ∃ d bs, nearestQualifyingSub t lat lng subs = some (d, bs) ∧
        s = scoredOfV2 t lng lat qws lmpD atcD d bs := by
  unfold computeLocationScore
  rcases h : nearestQualifyingSub t lat lng subs with _ | ⟨d, bs⟩
  · simp
  · simp only [Option.some.injEq]
    constructor
    · intro hs
      exact ⟨d, bs, rfl, hs.symm⟩
    · rintro ⟨d2, bs2, he, hs⟩
      simp only [Option.some.injEq, Prod.mk.injEq] at he
      rw [hs, he.1, he.2]

lemma legacy_some_iff (t : Trig) (lng lat : ℚ) (subs qws : FeatureCollection)
    (s : Legacy.ScoredSite) :
    Legacy.computeLocationScore t lng lat subs qws = some s ↔
      ∃ d bs, nearestQualifyingSub t lat lng subs = some (d, bs) ∧
        s = Legacy.scoredOfLegacy t lng lat qws d bs := by
  unfold Legacy.computeLocationScore
  rcases h : nearestQualifyingSub t lat lng subs with _ | ⟨d, bs⟩
  · simp
  · simp only [Option.some.injEq]
    constructor
    · intro hs
      exact ⟨d, bs, rfl, hs.symm⟩
    · rintro ⟨d2, bs2, he, hs⟩
      simp only [Option.some.injEq, Prod.mk.injEq] at he
      rw [hs, he.1, he.2]

lemma lmpStep_eq_of_point_none (t : Trig) (lat lng : ℚ) (f : Feature) {flon flat : ℚ}
    (hg : f.geometry = Geometry.point flon flat) :
    lmpStep t lat lng none f =
      some (t.hav lat lng flat flon, f.properties.name.getD "",
        f.properties.avg_lmp.getD 40) := by
  simp [lmpStep, hg]

lemma lmpStep_eq_of_point_some (t : Trig) (lat lng : ℚ) (f : Feature) {flon flat : ℚ}
    (bd : ℚ) (best : String × ℚ) (hg : f.geometry = Geometry.point flon flat) :
    lmpStep t lat lng (some (bd, best)) f =
      if t.hav lat lng flat flon < bd then
        some (t.hav lat lng flat flon, f.properties.name.getD "",
          f.properties.avg_lmp.getD 40)
      else some (bd, best) := by
  simp [lmpStep, hg]

lemma lmpStep_provenance {t : Trig} {lat lng : ℚ} {acc : Option (ℚ × String × ℚ)}
    {f : Feature} {q : ℚ × String × ℚ} (h : lmpStep t lat lng acc f = some q) :
    acc = some q ∨ ∃ flon flat : ℚ, f.geometry = Geometry.point flon flat ∧
      q = (t.hav lat lng flat flon, f.properties.name.getD "",
        f.properties.avg_lmp.getD 40) := by
  rcases hg : f.geometry with ⟨flon, flat⟩ | cs | ps | _
  · rcases acc with _ | ⟨bd, best⟩
    · rw [lmpStep_eq_of_point_none t lat lng f hg] at h
      simp only [Option.some.injEq] at h
      exact Or.inr ⟨flon, flat, rfl, h.symm⟩
    · rw [lmpStep_eq_of_point_some t lat lng f bd best hg] at h
      split_ifs at h <;> simp only [Option.some.injEq] at h
      · exact Or.inr ⟨flon, flat, rfl, h.symm⟩
      · left
        rw [h]
  all_goals
    left
    simpa [lmpStep, hg] using h

lemma lmpStep_point_isSome {t : Trig} {lat lng : ℚ} (acc : Option (ℚ × String × ℚ))
    {f : Feature} {flon flat : ℚ} (hg : f.geometry = Geometry.point flon flat) :
    ∃ q, lmpStep t lat lng acc f = some q ∧
      q.1 ≤ t.hav lat lng flat flon ∧ (∀ p, acc = some p → q.1 ≤ p.1) := by
  rcases acc with _ | ⟨bd, best⟩
  · refine ⟨_, lmpStep_eq_of_point_none t lat lng f hg, le_refl _, ?_⟩
    intro p hp
    exact absurd hp (by simp)
  · rw [lmpStep_eq_of_point_some t lat lng f bd best hg]
    by_cases hd : t.hav lat lng flat flon < bd
    · refine ⟨_, by rw [if_pos hd], le_refl _, ?_⟩
      intro p hp
      simp only [Option.some.injEq] at hp
      rw [← hp]
      exact le_of_lt hd
    · refine ⟨(bd, best), by rw [if_neg hd], not_lt.mp hd, ?_⟩
      intro p hp
      simp only [Option.some.injEq] at hp
      rw [← hp]

lemma lmpStep_eq_of_nonpoint (t : Trig) (lat lng : ℚ) (acc : Option (ℚ × String × ℚ))
    (f : Feature) (hg : ∀ flon flat : ℚ, f.geometry ≠ Geometry.point flon flat) :
    lmpStep t lat lng acc f = acc := by
  rcases hgc : f.geometry with ⟨flon, flat⟩ | cs | ps | _
  · exact absurd hgc (hg flon flat)
  all_goals simp [lmpStep, hgc]

lemma lmpFold_provenance (t : Trig) (lat lng : ℚ) :
    ∀ (l : List Feature) (acc : Option (ℚ × String × ℚ)) (q : ℚ × String × ℚ),
      l.foldl (lmpStep t lat lng) acc = some q →
      acc = some q ∨ ∃ f ∈ l, ∃ flon flat : ℚ, f.geometry = Geometry.point flon flat ∧
        q = (t.hav lat lng flat flon, f.properties.name.getD "",
          f.properties.avg_lmp.getD 40) := by
  intro l
  induction l with
  | nil =>
    intro acc q h
    left
    simpa using h
  | cons hd tl ih =>
    intro acc q h
    rw [List.foldl_cons] at h
    rcases ih _ q h with hstep | ⟨f, hf, rest⟩
    · rcases lmpStep_provenance hstep with hacc | ⟨flon, flat, hgeo, hq⟩
      · left
        exact hacc
      · exact Or.inr ⟨hd, List.mem_cons_self hd tl, flon, flat, hgeo, hq⟩
    · exact Or.inr ⟨f, List.mem_cons_of_mem hd hf, rest⟩

lemma lmpFold_min (t : Trig) (lat lng : ℚ) :
    ∀ (l : List Feature) (acc : Option (ℚ × String × ℚ)) (q : ℚ × String × ℚ),
      l.foldl (lmpStep t lat lng) acc = some q →
      (∀ p, acc = some p → q.1 ≤ p.1) ∧
      (∀ g ∈ l, ∀ glon glat : ℚ, g.geometry = Geometry.point glon glat →
        q.1 ≤ t.hav lat lng glat glon) := by
  intro l
  induction l with
  | nil =>
    intro acc q h
    simp only [List.foldl_nil] at h
    constructor
    · intro p hp
      rw [hp] at h
      simp only [Option.some.injEq] at h
      rw [h]
    · intro g hg
      exact absurd hg (List.not_mem_nil g)
  | cons hd tl ih =>
    intro acc q h
    rw [List.foldl_cons] at h
    obtain ⟨ih1, ih2⟩ := ih (lmpStep t lat lng acc hd) q h
    constructor
    · intro p hp
      rcases hgp : hd.geometry with ⟨flon, flat⟩ | cs | ps | _
      · obtain ⟨q2, hq2, hle1, hle2⟩ := lmpStep_point_isSome acc hgp
        exact le_trans (ih1 q2 hq2) (hle2 p hp)
      all_goals
        have hstep : lmpStep t lat lng acc hd = acc :=
          lmpStep_eq_of_nonpoint t lat lng acc hd
            (by intro a b hc; rw [hgp] at hc; simp at hc)
        exact ih1 p (hstep.trans hp)
    · intro g hg glon glat hgeo
      rcases List.mem_cons.mp hg with rfl | hgtl
      · obtain ⟨q2, hq2, hle1, hle2⟩ := lmpStep_point_isSome acc hgeo
        exact le_trans (ih1 q2 hq2) hle1
      · exact ih2 g hgtl glon glat hgeo

lemma lmpFold_stays_none (t : Trig) (lat lng : ℚ) :
    ∀ (l : List Feature),
      (∀ f ∈ l, ∀ flon flat : ℚ, f.geometry ≠ Geometry.point flon flat) →
      l.foldl (lmpStep t lat lng) none = none := by
  intro l
  induction l with
  | nil => intro _; rfl
  | cons hd tl ih =>
    intro hl
    rw [List.foldl_cons,
      lmpStep_eq_of_nonpoint t lat lng none hd (hl hd (List.mem_cons_self hd tl))]
    exact ih (fun f hf => hl f (List.mem_cons_of_mem hd hf))

lemma findNearestLmpNode_nearest {t : Trig} {lat lng : ℚ} {dta : FeatureCollection}
    {res : LmpResult} (h : findNearestLmpNode t lat lng dta = some res) :
    ∃ f ∈ dta.features, ∃ flon flat : ℚ, f.geometry = Geometry.point flon flat ∧
      (∀ g ∈ dta.features, ∀ glon glat : ℚ, g.geometry = Geometry.point glon glat →
        t.hav lat lng flat flon ≤ t.hav lat lng glat glon) ∧
      res.name = f.properties.name.getD "" ∧
      res.avgLmp = f.properties.avg_lmp.getD 40 ∧
      res.lmpScore = computeLmpScore res.avgLmp := by
  unfold findNearestLmpNode at h
  rcases hf : dta.features.foldl (lmpStep t lat lng) none with _ | ⟨d0, nm, avg⟩ <;>
    rw [hf] at h
  · exact absurd h (by simp)
  · simp only [Option.some.injEq] at h
    rcases lmpFold_provenance t lat lng dta.features none (d0, nm, avg) hf with
      hacc | ⟨f, hmem, flon, flat, hgeo, hq⟩
    · exact absurd hacc (by simp)
    · obtain ⟨hm1, hm2⟩ := lmpFold_min t lat lng dta.features none (d0, nm, avg) hf
      simp only [Prod.mk.injEq] at hq
      obtain ⟨hd0, hnm, havg⟩ := hq
      refine ⟨f, hmem, flon, flat, hgeo, ?_, ?_, ?_, ?_⟩
      · intro g hg glon glat hgeo2
        rw [← hd0]
        exact hm2 g hg glon glat hgeo2
      · rw [← h]
        exact hnm
      · rw [← h]
        exact havg
      · rw [← h]

lemma findNearestLmpNode_none_of_no_point {t : Trig} {lat lng : ℚ}
    {dta : FeatureCollection}
    (h : ∀ f ∈ dta.features, ∀ flon flat : ℚ, f.geometry ≠ Geometry.point flon flat) :
    findNearestLmpNode t lat lng dta = none := by
  unfold findNearestLmpNode
  rw [lmpFold_stays_none t lat lng dta.features h]

end GridSite

namespace GridSite

lemma exNearest : nearestQualifyingSub trigZero 0 0 exSubs = some (0, exBest) := by
  unfold nearestQualifyingSub exSubs
  norm_num [subStep, exSub, exBest, trigZero]

lemma exLegacyEval :
    Legacy.computeLocationScore trigZero 0 0 exSubs emptyFC = some exSiteLegacy := by
  unfold Legacy.computeLocationScore
  rw [exNearest]
  rfl

lemma exV2Eval :
    computeLocationScore trigZero 0 0 exSubs emptyFC none none = some exSiteV2 := by
  unfold computeLocationScore
  rw [exNearest]
  rfl

lemma exSiteLmpEval :
    computeLocationScore trigZero 0 0 exSubs emptyFC (some exLmpFC) none = some exSiteLmp := by
  unfold computeLocationScore
  rw [exNearest]
  rfl

lemma exLmpFind :
    findNearestLmpNode trigZero 0 0 exLmpFC = some ⟨"N", 40, 60⟩ := by
  norm_num [findNearestLmpNode, lmpStep, exLmpFC, exLmpNoPrice, trigZero, computeLmpScore]

lemma exLegacyTtp : exSiteLegacy.time_to_power = 56.5 := by
  norm_num [exSiteLegacy, Legacy.scoredOfLegacy, Legacy.timeToPowerLegacy, queueWithin20,
    emptyFC, qwScoreOf, distScoreOf, voltScoreOf, linesScoreOf, exBest, r1,
    max_def, min_def, Int.floor_eq_iff]

lemma exV2Ttp : exSiteV2.time_to_power = 54.4 := by
  norm_num [exSiteV2, scoredOfV2, timeToPowerV2, queueWithin20,
    emptyFC, qwScoreOf, distScoreOf, voltScoreOf, linesScoreOf, exBest,
    lmpScoreValOf, atcScoreValOf, lmpResultOf, atcResultOf, r1,
    max_def, min_def, Int.floor_eq_iff]

/-- C1: for every query point and substation dataset (and optional
enrichment datasets), `computeLocationScore` returns `none` exactly when
the dataset holds no feature with `MAX_VOLT ≥ 345` and Point geometry —
in both copies of the function; since the result is an `Option`, a `none`
result carries no ScoredSite at all, never a zero-score one. -/
theorem claim1_none_iff_no_qualifying (t : Trig) (lng lat : ℚ)
    (subs qws : FeatureCollection) (lmpD atcD : Option FeatureCollection) :
    (computeLocationScore t lng lat subs qws lmpD atcD = none ↔
      ∀ f ∈ subs.features, qualifiesSub f = false) ∧
    (Legacy.computeLocationScore t lng lat subs qws = none ↔
      ∀ f ∈ subs.features, qualifiesSub f = false) := by
  have h2 := nearestQualifyingSub_eq_none_iff t lat lng subs
  constructor
  · rw [← h2]
    unfold computeLocationScore
    rcases h : nearestQualifyingSub t lat lng subs with _ | ⟨d, bs⟩ <;> simp
  · rw [← h2]
    unfold Legacy.computeLocationScore
    rcases h : nearestQualifyingSub t lat lng subs with _ | ⟨d, bs⟩ <;> simp

/-- C1 witness: on the empty substation dataset both copies return `none`. -/
theorem claim1_witness :
    computeLocationScore trigZero 0 0 emptyFC emptyFC none none = none :=
  (claim1_none_iff_no_qualifying trigZero 0 0 emptyFC emptyFC none none).1.mpr
    (by simp [emptyFC])

end GridSite

namespace GridSite

/-- C2 counterexample: on one concrete input (a single 345 kV substation
at the query point, no withdrawals, no enrichment datasets) the two copies
of `computeLocationScore` agree on every Time-to-Power sub-score
(distance 100, voltage 70, lines 0, queue 30, and the current copy's
neutral LMP 50 and ATC 50), yet the legacy copy reports Time to Power 56.5
(weights 35/20/20/25) while the current copy reports 54.4 — the value of
the claimed 25/15/15/18/14/13 formula.  Hence the claimed formula does not
hold in both copies. -/
theorem claim2_counterexample :
    Option.map (fun s => s.time_to_power)
      (Legacy.computeLocationScore trigZero 0 0 exSubs emptyFC) = some 56.5 ∧
    Option.map (fun s => s.time_to_power)
      (computeLocationScore trigZero 0 0 exSubs emptyFC none none) = some 54.4 ∧
    Option.map (fun s => s.sub_distance_score)
      (Legacy.computeLocationScore trigZero 0 0 exSubs emptyFC) =
      Option.map (fun s => s.sub_distance_score)
        (computeLocationScore trigZero 0 0 exSubs emptyFC none none) ∧
    Option.map (fun s => s.sub_voltage_score)
      (Legacy.computeLocationScore trigZero 0 0 exSubs emptyFC) =
      Option.map (fun s => s.sub_voltage_score)
        (computeLocationScore trigZero 0 0 exSubs emptyFC none none) ∧
    Option.map (fun s => s.tx_lines_score)
      (Legacy.computeLocationScore trigZero 0 0 exSubs emptyFC) =
      Option.map (fun s => s.tx_lines_score)
        (computeLocationScore trigZero 0 0 exSubs emptyFC none none) ∧
    Option.map (fun s => s.queue_withdrawal_score)
      (Legacy.computeLocationScore trigZero 0 0 exSubs emptyFC) =
      Option.map (fun s => s.queue_withdrawal_score)
        (computeLocationScore trigZero 0 0 exSubs emptyFC none none) ∧
    Option.map (fun s => s.lmp_score)
      (computeLocationScore trigZero 0 0 exSubs emptyFC none none) = some 50 ∧
    Option.map (fun s => s.atc_score)
      (computeLocationScore trigZero 0 0 exSubs emptyFC none none) = some 50 ∧
    (100 * (0.25 : ℚ) + 70 * 0.15 + 0 * 0.15 + 30 * 0.18 + 50 * 0.14 + 50 * 0.13 = 54.4) ∧
    (56.5 : ℚ) ≠ 54.4 := by
  rw [exLegacyEval, exV2Eval]
  refine ⟨by simp only [Option.map_some']; rw [exLegacyTtp],
    by simp only [Option.map_some']; rw [exV2Ttp],
    rfl, rfl, rfl, rfl, ?_, ?_, by norm_num, by norm_num⟩
  · simp only [Option.map_some']
    norm_num [exSiteV2, scoredOfV2, lmpScoreValOf, lmpResultOf, r1, Int.floor_eq_iff]
  · simp only [Option.map_some']
    norm_num [exSiteV2, scoredOfV2, atcScoreValOf, atcResultOf, r1, Int.floor_eq_iff]

/-- C2 amended: the 25/15/15/18/14/13 weighting (summing to 1.0) holds for
the current copy of `computeLocationScore` (part_006); the legacy copy in
src/lib/scoring.ts instead weights its four sub-scores 35/20/20/25 (also
summing to 1.0) and has no LMP or ATC terms. -/
theorem claim2_amended :
    (∀ (t : Trig) (lng lat : ℚ) (subs qws : FeatureCollection)
        (lmpD atcD : Option FeatureCollection) (s : ScoredSite),
      computeLocationScore t lng lat subs qws lmpD atcD = some s →
        ∃ d v l q lp ac : ℚ,
          s.sub_distance_score = r1 d ∧ s.sub_voltage_score = r1 v ∧
          s.tx_lines_score = r1 l ∧ s.queue_withdrawal_score = r1 q ∧
          s.lmp_score = r1 lp ∧ s.atc_score = r1 ac ∧
          s.time_to_power =
            r1 (d * 0.25 + v * 0.15 + l * 0.15 + q * 0.18 + lp * 0.14 + ac * 0.13) ∧
          (0.25 + 0.15 + 0.15 + 0.18 + 0.14 + 0.13 : ℚ) = 1) ∧
    (∀ (t : Trig) (lng lat : ℚ) (subs qws : FeatureCollection) (s : Legacy.ScoredSite),
      Legacy.computeLocationScore t lng lat subs qws = some s →
        ∃ d v l q : ℚ,
          s.sub_distance_score = r1 d ∧ s.sub_voltage_score = r1 v ∧
          s.tx_lines_score = r1 l ∧ s.queue_withdrawal_score = r1 q ∧
          s.time_to_power = r1 (d * 0.35 + v * 0.20 + l * 0.20 + q * 0.25) ∧
          (0.35 + 0.20 + 0.20 + 0.25 : ℚ) = 1) := by
  constructor
  · intro t lng lat subs qws lmpD atcD s hs
    rw [computeLocationScore_some_iff] at hs
    obtain ⟨d, bs, hnear, rfl⟩ := hs
    exact ⟨distScoreOf d, voltScoreOf bs.maxVolt, linesScoreOf bs.lines,
      qwScoreOf (queueWithin20 t lat lng qws).1 (queueWithin20 t lat lng qws).2,
      lmpScoreValOf t lat lng lmpD, atcScoreValOf t lat lng atcD,
      rfl, rfl, rfl, rfl, rfl, rfl, rfl, by norm_num⟩
  · intro t lng lat subs qws s hs
    rw [legacy_some_iff] at hs
    obtain ⟨d, bs, hnear, rfl⟩ := hs
    exact ⟨distScoreOf d, voltScoreOf bs.maxVolt, linesScoreOf bs.lines,
      qwScoreOf (queueWithin20 t lat lng qws).1 (queueWithin20 t lat lng qws).2,
      rfl, rfl, rfl, rfl, rfl, by norm_num⟩

/-- C2 witness: the amended statement instantiated at the concrete input
of the counterexample. -/
theorem claim2_witness :
    ∃ d v l q lp ac : ℚ,
      exSiteV2.sub_distance_score = r1 d ∧ exSiteV2.sub_voltage_score = r1 v ∧
      exSiteV2.tx_lines_score = r1 l ∧ exSiteV2.queue_withdrawal_score = r1 q ∧
      exSiteV2.lmp_score = r1 lp ∧ exSiteV2.atc_score = r1 ac ∧
      exSiteV2.time_to_power =
        r1 (d * 0.25 + v * 0.15 + l * 0.15 + q * 0.18 + lp * 0.14 + ac * 0.13) ∧
      (0.25 + 0.15 + 0.15 + 0.18 + 0.14 + 0.13 : ℚ) = 1 :=
  claim2_amended.1 trigZero 0 0 exSubs emptyFC none none exSiteV2 exV2Eval

end GridSite

namespace GridSite

/-- C3 counterexample: with no pricing dataset at all the computation
still returns a ScoredSite, but its LMP sub-score is the neutral 50, not
the claimed 60 (the \$40-default path). -/
theorem claim3_counterexample :
    Option.map (fun s => s.lmp_score)
      (computeLocationScore trigZero 0 0 exSubs emptyFC none none) = some 50 ∧
    Option.map (fun s => s.lmp_score)
      (computeLocationScore trigZero 0 0 exSubs emptyFC none none) ≠ some 60 := by
  have h : Option.map (fun s => s.lmp_score)
      (computeLocationScore trigZero 0 0 exSubs emptyFC none none) = some 50 := by
    rw [exV2Eval]
    simp only [Option.map_some']
    norm_num [exSiteV2, scoredOfV2, lmpScoreValOf, lmpResultOf, r1, Int.floor_eq_iff]
  refine ⟨h, ?_⟩
  rw [h]
  norm_num

/-- C3 amended: the nearest-pricing-node scan always returns a record
derived from a minimal-distance Point feature of the dataset, with that
feature's own `avg_lmp` defaulted to 40 when absent — so whenever the
nearest node lacks `avg_lmp` (regardless of the other nodes), the price is
40 and the LMP sub-score 60, and the stored `lmp_score` of the returned
ScoredSite is 60; when no pricing dataset is supplied, or the dataset
yields no match (in particular when it contains no Point node), the LMP
sub-score instead defaults to the neutral 50 (not 60); and in every case
the presence of a ScoredSite depends only on the substation dataset, so
the computation never fails for lack of pricing data. -/
theorem claim3_amended :
    (∀ (t : Trig) (lat lng : ℚ) (dta : FeatureCollection) (res : LmpResult),
      findNearestLmpNode t lat lng dta = some res →
      ∃ f ∈ dta.features, ∃ flon flat : ℚ,
        f.geometry = Geometry.point flon flat ∧
        (∀ g ∈ dta.features, ∀ glon glat : ℚ,
          g.geometry = Geometry.point glon glat →
          t.hav lat lng flat flon ≤ t.hav lat lng glat glon) ∧
        res.name = f.properties.name.getD "" ∧
        res.avgLmp = f.properties.avg_lmp.getD 40 ∧
        res.lmpScore = computeLmpScore res.avgLmp ∧
        (f.properties.avg_lmp = none → res.avgLmp = 40 ∧ res.lmpScore = 60)) ∧
    (∀ (t : Trig) (lng lat : ℚ) (subs qws dta : FeatureCollection)
        (atcD : Option FeatureCollection) (s : ScoredSite) (res : LmpResult),
      computeLocationScore t lng lat subs qws (some dta) atcD = some s →
      findNearestLmpNode t lat lng dta = some res →
      s.lmp_score = r1 res.lmpScore ∧ (res.lmpScore = 60 → s.lmp_score = 60)) ∧
    (∀ (t : Trig) (lng lat : ℚ) (subs qws : FeatureCollection)
        (atcD : Option FeatureCollection) (s : ScoredSite),
      computeLocationScore t lng lat subs qws none atcD = some s → s.lmp_score = 50) ∧
    (∀ (t : Trig) (lng lat : ℚ) (subs qws dta : FeatureCollection)
        (atcD : Option FeatureCollection) (s : ScoredSite),
      findNearestLmpNode t lat lng dta = none →
      computeLocationScore t lng lat subs qws (some dta) atcD = some s →
      s.lmp_score = 50) ∧
    (∀ (t : Trig) (lat lng : ℚ) (dta : FeatureCollection),
      (∀ f ∈ dta.features, ∀ flon flat : ℚ, f.geometry ≠ Geometry.point flon flat) →
      findNearestLmpNode t lat lng dta = none) ∧
    (∀ (t : Trig) (lng lat : ℚ) (subs qws : FeatureCollection)
        (lmpD atcD : Option FeatureCollection),
      (computeLocationScore t lng lat subs qws lmpD atcD).isSome =
        (computeLocationScore t lng lat subs qws none none).isSome) := by
  refine ⟨?_, ?_, ?_, ?_, ?_, ?_⟩
  · intro t lat lng dta res h
    obtain ⟨f, hmem, flon, flat, hgeo, hmin, hname, havg, hscore⟩ :=
      findNearestLmpNode_nearest h
    refine ⟨f, hmem, flon, flat, hgeo, hmin, hname, havg, hscore, ?_⟩
    intro hnone
    have h40 : res.avgLmp = 40 := by
      rw [havg, hnone]
      rfl
    refine ⟨h40, ?_⟩
    rw [hscore, h40]
    norm_num [computeLmpScore]
  · intro t lng lat subs qws dta atcD s res hs hres
    rw [computeLocationScore_some_iff] at hs
    obtain ⟨d, bs, hnear, rfl⟩ := hs
    have hval : lmpScoreValOf t lat lng (some dta) = res.lmpScore :=
      lmpScoreValOf_eq_some (show lmpResultOf t lat lng (some dta) = some res from hres)
    constructor
    · show r1 (lmpScoreValOf t lat lng (some dta)) = r1 res.lmpScore
      rw [hval]
    · intro h60
      show r1 (lmpScoreValOf t lat lng (some dta)) = 60
      rw [hval, h60]
      norm_num [r1, Int.floor_eq_iff]
  · intro t lng lat subs qws atcD s hs
    rw [computeLocationScore_some_iff] at hs
    obtain ⟨d, bs, hnear, rfl⟩ := hs
    have h50 : lmpScoreValOf t lat lng none = 50 := lmpScoreValOf_eq_none rfl
    show r1 (lmpScoreValOf t lat lng none) = 50
    rw [h50]
    norm_num [r1, Int.floor_eq_iff]
  · intro t lng lat subs qws dta atcD s hnone hs
    rw [computeLocationScore_some_iff] at hs
    obtain ⟨d, bs, hnear, rfl⟩ := hs
    have h50 : lmpScoreValOf t lat lng (some dta) = 50 :=
      lmpScoreValOf_eq_none (show lmpResultOf t lat lng (some dta) = none from hnone)
    show r1 (lmpScoreValOf t lat lng (some dta)) = 50
    rw [h50]
    norm_num [r1, Int.floor_eq_iff]
  · intro t lat lng dta hno
    exact findNearestLmpNode_none_of_no_point hno
  · intro t lng lat subs qws lmpD atcD
    unfold computeLocationScore
    rcases h : nearestQualifyingSub t lat lng subs with _ | ⟨d, bs⟩
    · simp
    · simp

/-- C3 witness: the amended statement at concrete inputs — a pricing
dataset whose (only, hence nearest) node lacks `avg_lmp` yields a stored
LMP sub-score of 60, and the no-dataset path yields 50. -/
theorem claim3_witness :
    exSiteLmp.lmp_score = 60 ∧ exSiteV2.lmp_score = 50 :=
  ⟨(claim3_amended.2.1 trigZero 0 0 exSubs emptyFC exLmpFC none exSiteLmp
      ⟨"N", 40, 60⟩ exSiteLmpEval exLmpFind).2 rfl,
    claim3_amended.2.2.1 trigZero 0 0 exSubs emptyFC none exSiteV2 exV2Eval⟩

end GridSite

namespace GridSite

/-- C4: whenever either copy of `computeLocationScore` returns a
ScoredSite, its composite score and every dimension and sub-score field
lie in [0,100] and are rounded to one decimal place. -/
theorem claim4_scores_in_range (t : Trig) (lng lat : ℚ) (subs qws : FeatureCollection)
    (lmpD atcD : Option FeatureCollection) :
    (∀ s, computeLocationScore t lng lat subs qws lmpD atcD = some s →
      scoreFieldsOk s) ∧
    (∀ s2, Legacy.computeLocationScore t lng lat subs qws = some s2 →
      scoreFieldsOkL s2) := by
  constructor
  · intro s hs
    rw [computeLocationScore_some_iff] at hs
    obtain ⟨d, bs, hnear, rfl⟩ := hs
    exact scoredOfV2_ok t lng lat qws lmpD atcD d bs
  · intro s2 hs
    rw [legacy_some_iff] at hs
    obtain ⟨d, bs, hnear, rfl⟩ := hs
    exact scoredOfLegacy_ok t lng lat qws d bs

/-- C4 witness: the range and rounding invariant at the concrete sites of
the evaluation examples, in both copies. -/
theorem claim4_witness : scoreFieldsOk exSiteV2 ∧ scoreFieldsOkL exSiteLegacy :=
  ⟨(claim4_scores_in_range trigZero 0 0 exSubs emptyFC none none).1 exSiteV2 exV2Eval,
   (claim4_scores_in_range trigZero 0 0 exSubs emptyFC none none).2 exSiteLegacy exLegacyEval⟩

/-- C5: the time-to-power classifier returns green exactly on a retired or
retiring site with distance sub-score at least 80, lines sub-score at
least 25 and queue sub-score above 30; otherwise red exactly when the
distance sub-score is below 50 or (lines below 25 and queue at most 30);
otherwise yellow — and no other tier exists. -/
theorem claim5_classifier (s : ScoredSite) :
    (estimateTimeToPower s = TtpTier.green ↔
      (s.status = "retired" ∨ s.status = "retiring") ∧ s.sub_distance_score ≥ 80 ∧
        s.tx_lines_score ≥ 25 ∧ s.queue_withdrawal_score > 30) ∧
    (estimateTimeToPower s ≠ TtpTier.green →
      (estimateTimeToPower s = TtpTier.red ↔
        s.sub_distance_score < 50 ∨
          (s.tx_lines_score < 25 ∧ s.queue_withdrawal_score ≤ 30))) ∧
    (estimateTimeToPower s ≠ TtpTier.green → estimateTimeToPower s ≠ TtpTier.red →
      estimateTimeToPower s = TtpTier.yellow) := by
  unfold estimateTimeToPower
  split_ifs with h1 h2
  · refine ⟨by simp [h1], ?_, ?_⟩
    · intro hg
      exact absurd rfl hg
    · intro hg
      exact absurd rfl hg
  · refine ⟨by simp [h1], ?_, ?_⟩
    · intro _
      simp [h2]
    · intro _ hr
      exact absurd rfl hr
  · refine ⟨by simp [h1], ?_, ?_⟩
    · intro _
      simp [h2]
    · intro _ _
      rfl

/-- C5 witness: the spec's example — a retired plant with distance
sub-score 85, lines sub-score 37.5 and queue sub-score 55 is green. -/
theorem claim5_witness : estimateTimeToPower exGreenSite = TtpTier.green :=
  (claim5_classifier exGreenSite).1.mpr (by norm_num [exGreenSite])

end GridSite

namespace GridSite

/-- C6: the queue-withdrawal sub-score is exactly 30 when the 20-mile
tally finds zero withdrawals, and otherwise equals
`clamp(0,100, clamp(30,100, 30 + count*5) + clamp(0,20, totalMW/5000*20))`;
5 withdrawals totalling 0 MW give 55 and 5 withdrawals totalling 5000 MW
give 75; and in both copies of `computeLocationScore` the stored
queue-withdrawal sub-score is this value (rounded to one decimal, which
leaves the cited values unchanged). -/
theorem claim6_queue_score :
    (∀ mw : ℚ, qwScoreOf 0 mw = 30) ∧
    (∀ (c : ℕ) (mw : ℚ), c ≠ 0 →
      qwScoreOf c mw =
        clamp 0 100 (clamp 30 100 (30 + (c : ℚ) * 5) + clamp 0 20 (mw / 5000 * 20))) ∧
    qwScoreOf 5 0 = 55 ∧ qwScoreOf 5 5000 = 75 ∧
    (∀ (t : Trig) (lng lat : ℚ) (subs qws : FeatureCollection)
        (lmpD atcD : Option FeatureCollection) (s : ScoredSite),
      computeLocationScore t lng lat subs qws lmpD atcD = some s →
        s.queue_withdrawal_score =
          r1 (qwScoreOf (queueWithin20 t lat lng qws).1 (queueWithin20 t lat lng qws).2) ∧
        ((queueWithin20 t lat lng qws).1 = 0 → s.queue_withdrawal_score = 30)) ∧
    (∀ (t : Trig) (lng lat : ℚ) (subs qws : FeatureCollection) (s : Legacy.ScoredSite),
      Legacy.computeLocationScore t lng lat subs qws = some s →
        s.queue_withdrawal_score =
          r1 (qwScoreOf (queueWithin20 t lat lng qws).1 (queueWithin20 t lat lng qws).2) ∧
        ((queueWithin20 t lat lng qws).1 = 0 → s.queue_withdrawal_score = 30)) := by
  refine ⟨?_, ?_, ?_, ?_, ?_, ?_⟩
  · intro mw
    simp [qwScoreOf]
  · intro c mw hc
    simp [qwScoreOf, clamp, hc]
  · norm_num [qwScoreOf, max_def, min_def]
  · norm_num [qwScoreOf, max_def, min_def]
  · intro t lng lat subs qws lmpD atcD s hs
    rw [computeLocationScore_some_iff] at hs
    obtain ⟨d, bs, hnear, rfl⟩ := hs
    refine ⟨rfl, ?_⟩
    intro h0
    show r1 (qwScoreOf (queueWithin20 t lat lng qws).1 (queueWithin20 t lat lng qws).2) = 30
    rw [h0]
    have h30 : qwScoreOf 0 (queueWithin20 t lat lng qws).2 = 30 := by simp [qwScoreOf]
    rw [h30]
    norm_num [r1, Int.floor_eq_iff]
  · intro t lng lat subs qws s hs
    rw [legacy_some_iff] at hs
    obtain ⟨d, bs, hnear, rfl⟩ := hs
    refine ⟨rfl, ?_⟩
    intro h0
    show r1 (qwScoreOf (queueWithin20 t lat lng qws).1 (queueWithin20 t lat lng qws).2) = 30
    rw [h0]
    have h30 : qwScoreOf 0 (queueWithin20 t lat lng qws).2 = 30 := by simp [qwScoreOf]
    rw [h30]
    norm_num [r1, Int.floor_eq_iff]

/-- C6 witness: the formula at the concrete tallies of the spec examples,
and the stored sub-score for a concrete scored point with no withdrawals. -/
theorem claim6_witness :
    qwScoreOf 5 0 = 55 ∧ exSiteV2.queue_withdrawal_score = 30 :=
  ⟨claim6_queue_score.2.2.1,
   (claim6_queue_score.2.2.2.2.1 trigZero 0 0 exSubs emptyFC none none exSiteV2
      exV2Eval).2 rfl⟩

/-- C7: the LMP sub-score is a pure step function of the nearest node's
average price with inclusive upper boundaries at 20, 25, 30, 35, 40, 45,
50 and 55; in particular 45 gives 50, 45.01 gives 40 and 42 gives 50. -/
theorem claim7_lmp_step :
    (∀ x : ℚ, x ≤ 20 → computeLmpScore x = 95) ∧
    (∀ x : ℚ, 20 < x → x ≤ 25 → computeLmpScore x = 90) ∧
    (∀ x : ℚ, 25 < x → x ≤ 30 → computeLmpScore x = 80) ∧
    (∀ x : ℚ, 30 < x → x ≤ 35 → computeLmpScore x = 70) ∧
    (∀ x : ℚ, 35 < x → x ≤ 40 → computeLmpScore x = 60) ∧
    (∀ x : ℚ, 40 < x → x ≤ 45 → computeLmpScore x = 50) ∧
    (∀ x : ℚ, 45 < x → x ≤ 50 → computeLmpScore x = 40) ∧
    (∀ x : ℚ, 50 < x → x ≤ 55 → computeLmpScore x = 30) ∧
    (∀ x : ℚ, 55 < x → computeLmpScore x = 20) ∧
    computeLmpScore 45 = 50 ∧ computeLmpScore 45.01 = 40 ∧ computeLmpScore 42 = 50 := by
  refine ⟨?_, ?_, ?_, ?_, ?_, ?_, ?_, ?_, ?_,
    by norm_num [computeLmpScore], by norm_num [computeLmpScore],
    by norm_num [computeLmpScore]⟩
  · intro x h1
    simp [computeLmpScore, h1]
  · intro x h1 h2
    have n1 : ¬x ≤ 20 := by linarith
    simp [computeLmpScore, n1, h2]
  · intro x h1 h2
    have n1 : ¬x ≤ 20 := by linarith
    have n2 : ¬x ≤ 25 := by linarith
    simp [computeLmpScore, n1, n2, h2]
  · intro x h1 h2
    have n1 : ¬x ≤ 20 := by linarith
    have n2 : ¬x ≤ 25 := by linarith
    have n3 : ¬x ≤ 30 := by linarith
    simp [computeLmpScore, n1, n2, n3, h2]
  · intro x h1 h2
    have n1 : ¬x ≤ 20 := by linarith
    have n2 : ¬x ≤ 25 := by linarith
    have n3 : ¬x ≤ 30 := by linarith
    have n4 : ¬x ≤ 35 := by linarith
    simp [computeLmpScore, n1, n2, n3, n4, h2]
  · intro x h1 h2
    have n1 : ¬x ≤ 20 := by linarith
    have n2 : ¬x ≤ 25 := by linarith
    have n3 : ¬x ≤ 30 := by linarith
    have n4 : ¬x ≤ 35 := by linarith
    have n5 : ¬x ≤ 40 := by linarith
    simp [computeLmpScore, n1, n2, n3, n4, n5, h2]
  · intro x h1 h2
    have n1 : ¬x ≤ 20 := by linarith
    have n2 : ¬x ≤ 25 := by linarith
    have n3 : ¬x ≤ 30 := by linarith
    have n4 : ¬x ≤ 35 := by linarith
    have n5 : ¬x ≤ 40 := by linarith
    have n6 : ¬x ≤ 45 := by linarith
    simp [computeLmpScore, n1, n2, n3, n4, n5, n6, h2]
  · intro x h1 h2
    have n1 : ¬x ≤ 20 := by linarith
    have n2 : ¬x ≤ 25 := by linarith
    have n3 : ¬x ≤ 30 := by linarith
    have n4 : ¬x ≤ 35 := by linarith
    have n5 : ¬x ≤ 40 := by linarith
    have n6 : ¬x ≤ 45 := by linarith
    have n7 : ¬x ≤ 50 := by linarith
    simp [computeLmpScore, n1, n2, n3, n4, n5, n6, n7, h2]
  · intro x h1
    have n1 : ¬x ≤ 20 := by linarith
    have n2 : ¬x ≤ 25 := by linarith
    have n3 : ¬x ≤ 30 := by linarith
    have n4 : ¬x ≤ 35 := by linarith
    have n5 : ¬x ≤ 40 := by linarith
    have n6 : ¬x ≤ 45 := by linarith
    have n7 : ¬x ≤ 50 := by linarith
    have n8 : ¬x ≤ 55 := by linarith
    simp [computeLmpScore, n1, n2, n3, n4, n5, n6, n7, n8]

/-- C7 witness: the 40-to-45 step applied at the concrete price 42. -/
theorem claim7_witness : computeLmpScore 42 = 50 :=
  claim7_lmp_step.2.2.2.2.2.1 42 (by norm_num) (by norm_num)

end GridSite

namespace GridSite

/-- C8: in proximity analysis at any radius, a substation or
queue-withdrawal point record is counted exactly when its haversine
distance to the site is at most the radius (inclusive boundary), with
substations bucketed by voltage tier (at least 500, 345 to 499, 230 to
344, below 230 kV) and withdrawal MW summed over the counted records. -/
theorem claim8_proximity_tallies (t : Trig) (siteLat siteLon radius : ℚ)
    (subs qws : FeatureCollection) :
    (Prox.analyzeSubstations t siteLat siteLon radius subs).total =
      subs.features.countP (Prox.withinRadius t siteLat siteLon radius) ∧
    (Prox.analyzeSubstations t siteLat siteLon radius subs).by500Plus =
      subs.features.countP (fun f =>
        Prox.withinRadius t siteLat siteLon radius f && decide (500 ≤ Prox.maxVoltOf f)) ∧
    (Prox.analyzeSubstations t siteLat siteLon radius subs).by345to499 =
      subs.features.countP (fun f =>
        Prox.withinRadius t siteLat siteLon radius f &&
          decide (345 ≤ Prox.maxVoltOf f ∧ Prox.maxVoltOf f < 500)) ∧
    (Prox.analyzeSubstations t siteLat siteLon radius subs).by230to344 =
      subs.features.countP (fun f =>
        Prox.withinRadius t siteLat siteLon radius f &&
          decide (230 ≤ Prox.maxVoltOf f ∧ Prox.maxVoltOf f < 345)) ∧
    (Prox.analyzeSubstations t siteLat siteLon radius subs).byUnder230 =
      subs.features.countP (fun f =>
        Prox.withinRadius t siteLat siteLon radius f && decide (Prox.maxVoltOf f < 230)) ∧
    (Prox.analyzeQueueWithdrawals t siteLat siteLon radius qws).total =
      qws.features.countP (Prox.withinRadius t siteLat siteLon radius) ∧
    (Prox.analyzeQueueWithdrawals t siteLat siteLon radius qws).totalWithdrawnMW =
      ((qws.features.filter (Prox.withinRadius t siteLat siteLon radius)).map
        Prox.mwOf).sum := by
  obtain ⟨a1, a2, a3, a4, a5⟩ :=
    Prox.subTallyFold t siteLat siteLon radius subs.features Prox.VoltTally.zero
  obtain ⟨b1, b2⟩ := Prox.qwTallyFold t siteLat siteLon radius qws.features ⟨0, 0⟩
  unfold Prox.analyzeSubstations Prox.analyzeQueueWithdrawals
  refine ⟨?_, ?_, ?_, ?_, ?_, ?_, ?_⟩
  · simpa [Prox.VoltTally.zero] using a1
  · simpa [Prox.VoltTally.zero] using a2
  · simpa [Prox.VoltTally.zero] using a3
  · simpa [Prox.VoltTally.zero] using a4
  · simpa [Prox.VoltTally.zero] using a5
  · simpa using b1
  · simpa using b2

/-- C8 witness: the tallies at a concrete input — the 345 kV substation at
the site center is counted once, inclusively. -/
theorem claim8_witness :
    (Prox.analyzeSubstations trigZero 0 0 5 exSubs).total = 1 := by
  rw [(claim8_proximity_tallies trigZero 0 0 5 exSubs emptyFC).1]
  norm_num [Prox.withinRadius, exSubs, exSub, trigZero, List.countP, List.countP.go]

/-- C9: a transmission line is counted as a crossing exactly when at least
one of its vertices lies inside the degree bounding box (radius/69 degrees
of latitude, the longitude delta further divided by the cosine of the site
latitude) and the intersection test against the 64-gon circle accepts it;
consequently the concrete equator line `exLine`, whose segment passes
straight through the site at the origin (its midpoint is the site, at
distance 0 of any radius, while both endpoints lie 69 miles away), is not
counted at radius 5 even under an intersection test that accepts
everything, because both vertices fall outside the bounding box. -/
theorem claim9_line_crossing :
    (∀ (t : Trig) (bInt : Feature → Bool) (siteLat siteLon radius : ℚ)
        (lines : FeatureCollection),
      (Prox.analyzeTransmissionLines t bInt siteLat siteLon radius lines).total =
        lines.features.countP
          (fun f => Prox.tlPrefilter t siteLat siteLon radius f && bInt f)) ∧
    exLine.geometry = Geometry.lineString [(-1, 0), (1, 0)] ∧
    Prox.tlPrefilter trigCheb 0 0 5 exLine = false ∧
    (Prox.analyzeTransmissionLines trigCheb acceptAll 0 0 5 exLines).total = 0 ∧
    (((-1 : ℚ) + 1) / 2, ((0 : ℚ) + 0) / 2) = ((0 : ℚ), (0 : ℚ)) ∧
    trigCheb.hav 0 0 0 0 ≤ 5 ∧
    5 < trigCheb.hav 0 0 0 1 ∧ 5 < trigCheb.hav 0 0 0 (-1) := by
  have hpre : Prox.tlPrefilter trigCheb 0 0 5 exLine = false := by
    norm_num [Prox.tlPrefilter, Prox.lineCoordsOf, Prox.inBbox, exLine, trigCheb]
  have h1 : ∀ (t : Trig) (bInt : Feature → Bool) (siteLat siteLon radius : ℚ)
      (lines : FeatureCollection),
      (Prox.analyzeTransmissionLines t bInt siteLat siteLon radius lines).total =
        lines.features.countP
          (fun f => Prox.tlPrefilter t siteLat siteLon radius f && bInt f) := by
    intro t bInt siteLat siteLon radius lines
    unfold Prox.analyzeTransmissionLines
    simpa [Prox.VoltTally.zero] using
      Prox.tlFold_total t bInt siteLat siteLon radius lines.features Prox.VoltTally.zero
  refine ⟨h1, rfl, hpre, ?_, by norm_num, by norm_num [trigCheb],
    ?_, ?_⟩
  · rw [h1]
    simp [exLines, List.countP, List.countP.go, hpre]
  · norm_num [trigCheb, max_def]
  · norm_num [trigCheb, max_def]

/-- C9 witness: the counting characterisation applied at the concrete
transmission-line example. -/
theorem claim9_witness :
    (Prox.analyzeTransmissionLines trigCheb acceptAll 0 0 5 exLines).total =
      exLines.features.countP
        (fun f => Prox.tlPrefilter trigCheb 0 0 5 f && acceptAll f) :=
  claim9_line_crossing.1 trigCheb acceptAll 0 0 5 exLines

/-- C10: every ScoredSite either copy of `computeLocationScore` produces
for a custom location has Site Readiness 65 and contamination sub-score 70
independently of coordinates and datasets, generation-capacity and
operational-status sub-scores 0, plant name "Custom Location", status
"custom", and a nearest-substation voltage of at least 345 kV. -/
theorem claim10_custom_constants (t : Trig) (lng lat : ℚ)
    (subs qws : FeatureCollection) (lmpD atcD : Option FeatureCollection) :
    (∀ s, computeLocationScore t lng lat subs qws lmpD atcD = some s →
      s.site_readiness = 65 ∧ s.contamination_score = 70 ∧
      s.gen_capacity_score = 0 ∧ s.operational_status_score = 0 ∧
      s.plant_name = "Custom Location" ∧ s.status = "custom" ∧
      345 ≤ s.nearest_sub_voltage_kv) ∧
    (∀ s2, Legacy.computeLocationScore t lng lat subs qws = some s2 →
      s2.site_readiness = 65 ∧ s2.contamination_score = 70 ∧
      s2.gen_capacity_score = 0 ∧ s2.operational_status_score = 0 ∧
      s2.plant_name = "Custom Location" ∧ s2.status = "custom" ∧
      345 ≤ s2.nearest_sub_voltage_kv) := by
  constructor
  · intro s hs
    rw [computeLocationScore_some_iff] at hs
    obtain ⟨d, bs, hnear, rfl⟩ := hs
    refine ⟨?_, ?_, ?_, ?_, rfl, rfl, nearestQualifyingSub_maxVolt hnear⟩
    · show r1 65 = 65
      norm_num [r1]
    · show r1 70 = 70
      norm_num [r1]
    · show r1 0 = 0
      norm_num [r1]
    · show r1 0 = 0
      norm_num [r1]
  · intro s2 hs
    rw [legacy_some_iff] at hs
    obtain ⟨d, bs, hnear, rfl⟩ := hs
    refine ⟨?_, ?_, ?_, ?_, rfl, rfl, nearestQualifyingSub_maxVolt hnear⟩
    · show r1 65 = 65
      norm_num [r1]
    · show r1 70 = 70
      norm_num [r1]
    · show r1 0 = 0
      norm_num [r1]
    · show r1 0 = 0
      norm_num [r1]

/-- C10 witness: the constants at the concrete sites of the evaluation
examples, in both copies. -/
theorem claim10_witness :
    (exSiteV2.site_readiness = 65 ∧ exSiteV2.contamination_score = 70 ∧
      exSiteV2.gen_capacity_score = 0 ∧ exSiteV2.operational_status_score = 0 ∧
      exSiteV2.plant_name = "Custom Location" ∧ exSiteV2.status = "custom" ∧
      345 ≤ exSiteV2.nearest_sub_voltage_kv) ∧
    (exSiteLegacy.site_readiness = 65 ∧ exSiteLegacy.contamination_score = 70 ∧
      exSiteLegacy.gen_capacity_score = 0 ∧ exSiteLegacy.operational_status_score = 0 ∧
      exSiteLegacy.plant_name = "Custom Location" ∧ exSiteLegacy.status = "custom" ∧
      345 ≤ exSiteLegacy.nearest_sub_voltage_kv) :=
  ⟨(claim10_custom_constants trigZero 0 0 exSubs emptyFC none none).1 exSiteV2 exV2Eval,
   (claim10_custom_constants trigZero 0 0 exSubs emptyFC none none).2 exSiteLegacy
     exLegacyEval⟩

end GridSite
